import Mathlib

set_option maxHeartbeats 1000000

/- The library marks the rational operations irreducible, which blocks
evaluation of concrete instances inside `decide`; re-marking them
semireducible restores it. -/
attribute [local semireducible] Rat.add Rat.mul Rat.sub Rat.inv Rat.ofScientific

/-! Verification development for the SuperSlicer/PrusaSlicer to OrcaSlicer
profile converter (`superslicer_to_orca.py`).  The converter's data model
and operations are embedded shallowly: Python dictionaries become
association lists (`dictInsert` reproduces the CPython in-place update that
keeps the original insertion position), Python string parsing is reproduced
by executable parsers over `List Char`, and Python `float` arithmetic is
modelled by exact rationals (a deliberate idealisation; the one place where
binary64 rounding is observable in the claims is analysed separately with
the `fp64` rounding model). -/

/-- Output values produced by the converter: a JSON string or an array of
strings (gcode blocks, multi-value printer parameters). -/
inductive VVal where
  | str (s : String)
  | arr (l : List String)
deriving DecidableEq, Repr

/-- One entry of `PARAMETER_MAP`: a single target key, a list of target keys
(fan-out), or the boolean pass-through marker used by the physical_printer
kind (the Python literal `True`). -/
inductive Target where
  | one (k : String)
  | many (ks : List String)
  | pass
deriving DecidableEq, Repr

/-- Parsed source profile: ordered key/value entries (a CPython dict). -/
abbrev Ini := List (String × String)

/-- Output record under construction (`self.new_hash`, a CPython dict). -/
abbrev Hash := List (String × VVal)

/-- Python default whitespace (for `str.strip` and the `\s` class of the
header pattern). -/
def isWS (c : Char) : Bool :=
  c = ' ' || c = '\t' || c = '\n' || c = '\r' || c = '\x0b' || c = '\x0c'

/-- Python `str.strip()` on a character list. -/
def stripL (cs : List Char) : List Char :=
  ((cs.dropWhile isWS).reverse.dropWhile isWS).reverse

/-- Python `str.strip()`. -/
def pyStrip (s : String) : String := String.mk (stripL s.data)

/-- Python `str.rstrip(c)` for a single strip character. -/
def rstripChar (c : Char) (s : String) : String :=
  String.mk ((s.data.reverse.dropWhile (fun x => x = c)).reverse)

/-- Python `str.split(d)` for a one-character delimiter (an empty input
yields one empty field, as in CPython). -/
def splitCharL (d : Char) : List Char → List (List Char)
  | [] => [[]]
  | c :: cs =>
    let r := splitCharL d cs
    if c = d then [] :: r
    else
      match r with
      | [] => [[c]]
      | h :: t => (c :: h) :: t

/-- Python `line.split(d, 1)`: the parts before and after the first
occurrence of `d`, or `none` when `d` does not occur. -/
def splitOnce (d : Char) : List Char → Option (List Char × List Char)
  | [] => none
  | c :: cs =>
    if c = d then some ([], cs)
    else
      match splitOnce d cs with
      | some (a, b) => some (c :: a, b)
      | none => none

/-- Python `str.replace(pat, repl)` (left to right, non-overlapping), with a
non-empty pattern given as head and tail. -/
def replaceL (p : Char) (ps : List Char) (repl : List Char) : List Char → List Char
  | [] => []
  | c :: cs =>
    if (p :: ps).isPrefixOf (c :: cs) then repl ++ replaceL p ps repl (cs.drop ps.length)
    else c :: replaceL p ps repl cs
termination_by l => l.length
decreasing_by
  all_goals simp [List.length_drop]
  omega

/-- Python `str.replace` on strings; an empty pattern leaves the string
unchanged (never used with an empty pattern). -/
def pyReplace (pat repl s : String) : String :=
  match pat.data with
  | [] => s
  | p :: ps => String.mk (replaceL p ps repl.data s.data)

/-- Case-insensitive prefix test (the header pattern is compiled with
IGNORECASE). -/
def ciPrefix : List Char → List Char → Bool
  | [], _ => true
  | _ :: _, [] => false
  | p :: ps, c :: cs => p.toLower = c.toLower && ciPrefix ps cs

/-- Leading digit run of the input and the remaining characters. -/
def takeDigits (cs : List Char) : List Char × List Char :=
  (cs.takeWhile Char.isDigit, cs.dropWhile Char.isDigit)

/-- Numeric value of a digit run. -/
def digitsVal (ds : List Char) : ℕ :=
  ds.foldl (fun a c => a * 10 + (c.toNat - 48)) 0

/-- Rational division written through `Rat.divInt` so that the kernel can
evaluate it (the ambient field division does not reduce definitionally);
division by zero yields zero, as for the ambient division. -/
def qdiv (a b : ℚ) : ℚ := Rat.divInt (a.num * b.den) (a.den * b.num)

/-- Exponent suffix of a Python float literal: optional sign and a
non-empty digit run consuming the whole remainder. -/
def expPart (base : ℚ) (t : List Char) : Option ℚ :=
  let sg := match t with
    | '-' :: u => (true, u)
    | '+' :: u => (false, u)
    | _ => (false, t)
  let dr := takeDigits sg.2
  if dr.1.isEmpty || !dr.2.isEmpty then none
  else
    let e : ℕ := digitsVal dr.1
    some (if sg.1 then qdiv base (10 ^ e) else base * 10 ^ e)

/-- Python `float(s)` on the literal grammar produced by slicer profiles:
optional sign, decimal digits with optional fractional part and optional
exponent, surrounding whitespace stripped.  The special forms `inf`, `nan`
and underscore digit separators are not modelled (no profile value uses
them).  The numeric value is exact; see `fp64` for binary64 rounding. -/
def pyFloatParse (s : String) : Option ℚ :=
  let cs0 := stripL s.data
  let sg := match cs0 with
    | '-' :: t => (true, t)
    | '+' :: t => (false, t)
    | _ => (false, cs0)
  let ir := takeDigits sg.2
  let fr := match ir.2 with
    | '.' :: t => takeDigits t
    | _ => (([] : List Char), ir.2)
  if ir.1.length + fr.1.length = 0 then none
  else
    let base : ℚ := (digitsVal ir.1 : ℚ) + qdiv (digitsVal fr.1 : ℚ) ((10 : ℚ) ^ fr.1.length)
    let we : Option ℚ := match fr.2 with
      | [] => some base
      | 'e' :: t => expPart base t
      | 'E' :: t => expPart base t
      | _ => none
    match we with
    | none => none
    | some q => some (if sg.1 then -q else q)

/-- Python `int(s)`: optional sign and decimal digits only. -/
def pyIntParse (s : String) : Option ℤ :=
  let cs0 := stripL s.data
  let sg := match cs0 with
    | '-' :: t => (true, t)
    | '+' :: t => (false, t)
    | _ => (false, cs0)
  if sg.2.isEmpty || !(sg.2.all Char.isDigit) then none
  else some (if sg.1 then -(digitsVal sg.2 : ℤ) else (digitsVal sg.2 : ℤ))

/-- Absolute value written with an executable conditional. -/
def pyAbs (q : ℚ) : ℚ := if q < 0 then -q else q

/-- Floor of a rational as flooring integer division. -/
def ratFloor (q : ℚ) : ℤ := Int.fdiv q.num q.den

/-- Fuel-driven binary logarithm (the fuel bound covers every value that
occurs; equal to `Nat.log2` there). -/
def log2F : ℕ → ℕ → ℕ
  | 0, _ => 0
  | fuel + 1, n => if 2 ≤ n then log2F fuel (n / 2) + 1 else 0

/-- Integer power of two over the rationals. -/
def qpow2 : ℤ → ℚ
  | .ofNat n => (2 : ℚ) ^ n
  | .negSucc n => qdiv 1 ((2 : ℚ) ^ (n + 1))

/-- Smallest `k` below the fuel bound with `q * 10 ^ k` integral. -/
def decExp (q : ℚ) : ℕ → Option ℕ
  | 0 => if q.den = 1 then some 0 else none
  | n + 1 =>
    match decExp q n with
    | some k => some k
    | none => if (q * 10 ^ (n + 1)).den = 1 then some (n + 1) else none

/-- Python `str(float)` in the exact-rational model: integers render with a
trailing `.0`; terminating decimals render all their digits with no
trailing zeros (the shortest round-trip of an exactly-representable
value).  CPython prints the shortest decimal round-tripping the binary64
value instead; the claim where that difference is observable is analysed
with `fp64`.  Scientific notation thresholds are not modelled. -/
def ratStr (q : ℚ) : String :=
  let sign := if q < 0 then "-" else ""
  let a := pyAbs q
  if a.den = 1 then sign ++ toString a.num ++ ".0"
  else
    match decExp a 64 with
    | some k =>
      let n : ℕ := (a * 10 ^ k).num.toNat
      let ds := toString n
      let ds := if ds.length ≤ k then String.mk (List.replicate (k + 1 - ds.length) '0') ++ ds else ds
      sign ++ ds.dropRight k ++ "." ++ ds.takeRight k
    | none => sign ++ toString a.num ++ "/" ++ toString a.den

/-- Round half to even to an integer (the rounding CPython fixed-point
formatting uses). -/
def roundHE (q : ℚ) : ℤ :=
  let fl := ratFloor q
  let r := q - fl
  if 2 * r < 1 then fl
  else if 1 < 2 * r then fl + 1
  else if fl % 2 = 0 then fl else fl + 1

/-- The speed-cascade formatting `f-string .1f` followed by
`.rstrip` of zeros and of the decimal point. -/
def fmt1 (q : ℚ) : String :=
  let n := roundHE (q * 10)
  let sign := if n < 0 then "-" else ""
  let m := n.natAbs
  let s := sign ++ toString (m / 10) ++ "." ++ toString (m % 10)
  rstripChar '.' (rstripChar '0' s)

/-- Python `str(value)` on converter values.  For a list CPython prints the
repr with quoted elements; the list case is unreachable on every rule path
that stringifies, so element quoting is not reproduced. -/
def pyStrV : VVal → String
  | .str s => s
  | .arr l => "[" ++ String.intercalate ", " l ++ "]"

/-- First-occurrence lookup in an association list (a CPython dict read;
keys are unique in every dict the program builds). -/
def alookup {α : Type} : List (String × α) → String → Option α
  | [], _ => none
  | (k, v) :: t, s => if k = s then some v else alookup t s

/-- CPython dict write `d[k] = v`: an existing key keeps its position and
receives the new value, a new key is appended. -/
def dictInsert {α : Type} (l : List (String × α)) (k : String) (v : α) : List (String × α) :=
  if (alookup l k).isSome then l.map fun kv => if kv.1 = k then (k, v) else kv
  else l ++ [(k, v)]

/-- Boolean string membership (Python `in` on dict keys and sets). -/
def strMem (s : String) : List String → Bool
  | [] => false
  | k :: t => s = k || strMem s t
/-- The print entry of `PARAMETER_MAP`, transcribed verbatim. -/
def PARAMETER_MAP_print : List (String × Target) := [
  ("arc_fitting", Target.one "enable_arc_fitting"),
  ("bottom_solid_layers", Target.one "bottom_shell_layers"),
  ("bottom_solid_min_thickness", Target.one "bottom_shell_thickness"),
  ("bridge_acceleration", Target.one "bridge_acceleration"),
  ("bridge_angle", Target.one "bridge_angle"),
  ("bridge_overlap_min", Target.one "bridge_density"),
  ("dont_support_bridges", Target.one "bridge_no_support"),
  ("bridge_speed_internal", Target.one "internal_bridge_speed"),
  ("brim_ears", Target.one "brim_ears"),
  ("brim_ears_detection_length", Target.one "brim_ears_detection_length"),
  ("brim_ears_max_angle", Target.one "brim_ears_max_angle"),
  ("brim_separation", Target.one "brim_object_gap"),
  ("brim_width", Target.one "brim_width"),
  ("brim_speed", Target.one "skirt_speed"),
  ("compatible_printers_condition", Target.one "compatible_printers_condition"),
  ("compatible_printers", Target.one "compatible_printers"),
  ("default_acceleration", Target.one "default_acceleration"),
  ("overhangs", Target.one "detect_overhang_wall"),
  ("thin_walls", Target.one "detect_thin_wall"),
  ("draft_shield", Target.one "draft_shield"),
  ("first_layer_size_compensation", Target.one "elefant_foot_compensation"),
  ("elefant_foot_compensation", Target.one "elefant_foot_compensation"),
  ("enable_dynamic_overhang_speeds", Target.one "enable_overhang_speed"),
  ("extra_perimeters_on_overhangs", Target.one "extra_perimeters_on_overhangs"),
  ("extra_perimeters_odd_layers", Target.one "alternate_extra_wall"),
  ("wipe_tower", Target.one "enable_prime_tower"),
  ("wipe_speed", Target.one "wipe_speed"),
  ("ensure_vertical_shell_thickness", Target.one "ensure_vertical_shell_thickness"),
  ("gap_fill_min_length", Target.one "filter_out_gap_fill"),
  ("gcode_comments", Target.one "gcode_comments"),
  ("gcode_label_objects", Target.one "gcode_label_objects"),
  ("machine_limits_usage", Target.one "emit_machine_limits_to_gcode"),
  ("infill_anchor_max", Target.one "infill_anchor_max"),
  ("infill_anchor", Target.one "infill_anchor"),
  ("fill_angle", Target.one "infill_direction"),
  ("infill_overlap", Target.one "infill_wall_overlap"),
  ("infill_first", Target.one "is_infill_first"),
  ("inherits", Target.one "inherits"),
  ("extrusion_width", Target.one "line_width"),
  ("extrusion_multiplier", Target.one "print_flow_ratio"),
  ("first_layer_acceleration", Target.one "initial_layer_acceleration"),
  ("first_layer_extrusion_width", Target.one "initial_layer_line_width"),
  ("first_layer_height", Target.one "initial_layer_print_height"),
  ("interface_shells", Target.one "interface_shells"),
  ("perimeter_extrusion_width", Target.one "inner_wall_line_width"),
  ("seam_gap", Target.one "seam_gap"),
  ("solid_infill_acceleration", Target.one "internal_solid_infill_acceleration"),
  ("solid_infill_extrusion_width", Target.one "internal_solid_infill_line_width"),
  ("ironing_flowrate", Target.one "ironing_flow"),
  ("ironing_spacing", Target.one "ironing_spacing"),
  ("ironing_speed", Target.one "ironing_speed"),
  ("layer_height", Target.one "layer_height"),
  ("init_z_rotate", Target.one "preferred_orientation"),
  ("spiral_vase", Target.one "spiral_mode"),
  ("solid_infill_extruder", Target.one "solid_infill_filament"),
  ("support_material_extruder", Target.one "support_filament"),
  ("infill_extruder", Target.one "sparse_infill_filament"),
  ("perimeter_extruder", Target.one "wall_filament"),
  ("first_layer_extruder", Target.one "first_layer_filament"),
  ("support_material_interface_extruder", Target.one "support_interface_filament"),
  ("avoid_crossing_perimeters_max_detour", Target.one "max_travel_detour_distance"),
  ("min_bead_width", Target.one "min_bead_width"),
  ("min_feature_size", Target.one "min_feature_size"),
  ("solid_infill_below_area", Target.one "minimum_sparse_infill_area"),
  ("only_one_perimeter_first_layer", Target.one "only_one_wall_first_layer"),
  ("only_one_perimeter_top", Target.one "only_one_wall_top"),
  ("ooze_prevention", Target.one "ooze_prevention"),
  ("extra_perimeters_overhangs", Target.one "extra_perimeters_on_overhangs"),
  ("overhangs_reverse", Target.one "overhang_reverse"),
  ("overhangs_reverse_threshold", Target.one "overhang_reverse_threshold"),
  ("perimeter_acceleration", Target.one "inner_wall_acceleration"),
  ("external_perimeter_acceleration", Target.one "outer_wall_acceleration"),
  ("external_perimeter_extrusion_width", Target.one "outer_wall_line_width"),
  ("post_process", Target.one "post_process"),
  ("wipe_tower_brim_width", Target.one "prime_tower_brim_width"),
  ("wipe_tower_width", Target.one "prime_tower_width"),
  ("raft_contact_distance", Target.one "raft_contact_distance"),
  ("raft_expansion", Target.one "raft_expansion"),
  ("raft_first_layer_density", Target.one "raft_first_layer_density"),
  ("raft_first_layer_expansion", Target.one "raft_first_layer_expansion"),
  ("raft_layers", Target.one "raft_layers"),
  ("avoid_crossing_perimeters", Target.one "reduce_crossing_wall"),
  ("only_retract_when_crossing_perimeters", Target.one "reduce_infill_retraction"),
  ("resolution", Target.one "resolution"),
  ("seam_position", Target.one "seam_position"),
  ("skirt_distance", Target.one "skirt_distance"),
  ("skirt_height", Target.one "skirt_height"),
  ("skirts", Target.one "skirt_loops"),
  ("slice_closing_radius", Target.one "slice_closing_radius"),
  ("slicing_mode", Target.one "slicing_mode"),
  ("small_perimeter_min_length", Target.one "small_perimeter_threshold"),
  ("infill_acceleration", Target.one "sparse_infill_acceleration"),
  ("fill_density", Target.one "sparse_infill_density"),
  ("infill_extrusion_width", Target.one "sparse_infill_line_width"),
  ("staggered_inner_seams", Target.one "staggered_inner_seams"),
  ("standby_temperature_delta", Target.one "standby_temperature_delta"),
  ("hole_to_polyhole", Target.one "hole_to_polyhole"),
  ("hole_to_polyhole_threshold", Target.one "hole_to_polyhole_threshold"),
  ("hole_to_polyhole_twisted", Target.one "hole_to_polyhole_twisted"),
  ("support_material", Target.one "enable_support"),
  ("support_material_angle", Target.one "support_angle"),
  ("support_material_enforce_layers", Target.one "enforce_support_layers"),
  ("support_material_spacing", Target.one "support_base_pattern_spacing"),
  ("support_material_contact_distance", Target.one "support_top_z_distance"),
  ("first_layer_size_compensation_layers", Target.one "elefant_foot_compensation_layers"),
  ("support_material_bottom_contact_distance", Target.one "support_bottom_z_distance"),
  ("support_material_bottom_interface_layers", Target.one "support_interface_bottom_layers"),
  ("support_material_interface_contact_loops", Target.one "support_interface_loop_pattern"),
  ("support_material_interface_spacing", Target.one "support_interface_spacing"),
  ("support_material_interface_layers", Target.one "support_interface_top_layers"),
  ("support_material_extrusion_width", Target.one "support_line_width"),
  ("support_material_buildplate_only", Target.one "support_on_build_plate_only"),
  ("support_material_threshold", Target.one "support_threshold_angle"),
  ("thick_bridges", Target.one "thick_bridges"),
  ("top_solid_layers", Target.one "top_shell_layers"),
  ("top_solid_min_thickness", Target.one "top_shell_thickness"),
  ("top_solid_infill_acceleration", Target.one "top_surface_acceleration"),
  ("top_infill_extrusion_width", Target.one "top_surface_line_width"),
  ("min_width_top_surface", Target.one "min_width_top_surface"),
  ("travel_acceleration", Target.one "travel_acceleration"),
  ("travel_speed_z", Target.one "travel_speed_z"),
  ("travel_speed", Target.one "travel_speed"),
  ("support_tree_angle", Target.one "tree_support_branch_angle"),
  ("support_tree_angle_slow", Target.one "tree_support_angle_slow"),
  ("support_tree_branch_diameter", Target.one "tree_support_branch_diameter"),
  ("support_tree_branch_diameter_angle", Target.one "tree_support_branch_diameter_angle"),
  ("support_tree_branch_diameter_double_wall", Target.one "tree_support_branch_diameter_double_wall"),
  ("support_tree_tip_diameter", Target.one "tree_support_tip_diameter"),
  ("support_tree_top_rate", Target.one "tree_support_top_rate"),
  ("wall_distribution_count", Target.one "wall_distribution_count"),
  ("perimeter_generator", Target.one "wall_generator"),
  ("perimeters", Target.one "wall_loops"),
  ("wall_transition_angle", Target.one "wall_transition_angle"),
  ("wall_transition_filter_deviation", Target.one "wall_transition_filter_deviation"),
  ("wall_transition_length", Target.one "wall_transition_length"),
  ("wipe_tower_no_sparse_layers", Target.one "wipe_tower_no_sparse_layers"),
  ("xy_size_compensation", Target.one "xy_contour_compensation"),
  ("z_offset", Target.one "z_offset"),
  ("xy_inner_size_compensation", Target.one "xy_hole_compensation"),
  ("support_material_layer_height", Target.one "independent_support_layer_height"),
  ("fill_pattern", Target.one "sparse_infill_pattern"),
  ("solid_fill_pattern", Target.one "internal_solid_infill_pattern"),
  ("output_filename_format", Target.one "filename_format"),
  ("support_material_pattern", Target.one "support_base_pattern"),
  ("support_material_interface_pattern", Target.one "support_interface_pattern"),
  ("top_fill_pattern", Target.one "top_surface_pattern"),
  ("support_material_xy_spacing", Target.one "support_object_xy_distance"),
  ("fuzzy_skin_point_dist", Target.one "fuzzy_skin_point_distance"),
  ("fuzzy_skin_thickness", Target.one "fuzzy_skin_thickness"),
  ("fuzzy_skin", Target.one "fuzzy_skin"),
  ("bottom_fill_pattern", Target.one "bottom_surface_pattern"),
  ("bridge_flow_ratio", Target.one "bridge_flow"),
  ("fill_top_flow_ratio", Target.one "top_solid_infill_flow_ratio"),
  ("first_layer_flow_ratio", Target.one "bottom_solid_infill_flow_ratio"),
  ("infill_every_layers", Target.one "infill_combination"),
  ("complete_objects", Target.one "print_sequence"),
  ("brim_type", Target.one "brim_type"),
  ("notes", Target.one "notes"),
  ("support_material_style", Target.one "support_style"),
  ("ironing", Target.one "ironing"),
  ("ironing_type", Target.one "ironing_type"),
  ("ironing_angle", Target.one "ironing_angle"),
  ("external_perimeters_first", Target.one "external_perimeters_first"),
  ("remaining_times", Target.one "disable_m73")
]

/-- The filament entry of `PARAMETER_MAP`, transcribed verbatim. -/
def PARAMETER_MAP_filament : List (String × Target) := [
  ("bed_temperature", Target.many ["hot_plate_temp", "cool_plate_temp", "eng_plate_temp", "textured_plate_temp"]),
  ("bridge_fan_speed", Target.one "overhang_fan_speed"),
  ("chamber_temperature", Target.one "chamber_temperature"),
  ("disable_fan_first_layers", Target.one "close_fan_the_first_x_layers"),
  ("end_filament_gcode", Target.one "filament_end_gcode"),
  ("external_perimeter_fan_speed", Target.one "overhang_fan_threshold"),
  ("extrusion_multiplier", Target.one "filament_flow_ratio"),
  ("fan_always_on", Target.one "reduce_fan_stop_start_freq"),
  ("fan_below_layer_time", Target.one "fan_cooling_layer_time"),
  ("fan_speedup_time", Target.one "fan_speedup_time"),
  ("fan_speedup_overhangs", Target.one "fan_speedup_overhangs"),
  ("fan_kickstart", Target.one "fan_kickstart"),
  ("filament_colour", Target.one "default_filament_colour"),
  ("filament_cost", Target.one "filament_cost"),
  ("filament_density", Target.one "filament_density"),
  ("filament_deretract_speed", Target.one "filament_deretraction_speed"),
  ("filament_diameter", Target.one "filament_diameter"),
  ("filament_max_volumetric_speed", Target.one "filament_max_volumetric_speed"),
  ("filament_notes", Target.one "filament_notes"),
  ("filament_retract_before_travel", Target.one "filament_retraction_minimum_travel"),
  ("filament_retract_before_wipe", Target.one "filament_retract_before_wipe"),
  ("filament_retract_layer_change", Target.one "filament_retract_when_changing_layer"),
  ("filament_retract_length", Target.one "filament_retraction_length"),
  ("filament_retract_lift", Target.one "filament_z_hop"),
  ("filament_retract_lift_above", Target.one "filament_retract_lift_above"),
  ("filament_retract_lift_below", Target.one "filament_retract_lift_below"),
  ("filament_retract_restart_extra", Target.one "filament_retract_restart_extra"),
  ("filament_retract_speed", Target.one "filament_retraction_speed"),
  ("filament_shrink", Target.one "filament_shrink"),
  ("filament_soluble", Target.one "filament_soluble"),
  ("filament_type", Target.one "filament_type"),
  ("filament_wipe", Target.one "filament_wipe"),
  ("first_layer_bed_temperature", Target.many ["hot_plate_temp_initial_layer", "cool_plate_temp_initial_layer", "eng_plate_temp_initial_layer", "textured_plate_temp_initial_layer"]),
  ("first_layer_temperature", Target.one "nozzle_temperature_initial_layer"),
  ("full_fan_speed_layer", Target.one "full_fan_speed_layer"),
  ("inherits", Target.one "inherits"),
  ("max_fan_speed", Target.one "fan_max_speed"),
  ("min_fan_speed", Target.one "fan_min_speed"),
  ("min_print_speed", Target.one "slow_down_min_speed"),
  ("slowdown_below_layer_time", Target.one "slow_down_layer_time"),
  ("start_filament_gcode", Target.one "filament_start_gcode"),
  ("support_material_interface_fan_speed", Target.one "support_material_interface_fan_speed"),
  ("temperature", Target.one "nozzle_temperature"),
  ("compatible_printers_condition", Target.one "compatible_printers_condition"),
  ("compatible_printers", Target.one "compatible_printers"),
  ("compatible_prints_condition", Target.one "compatible_prints_condition"),
  ("compatible_prints", Target.one "compatible_prints"),
  ("filament_vendor", Target.one "filament_vendor"),
  ("filament_minimal_purge_on_wipe_tower", Target.one "filament_minimal_purge_on_wipe_tower")
]

/-- The printer entry of `PARAMETER_MAP`, transcribed verbatim. -/
def PARAMETER_MAP_printer : List (String × Target) := [
  ("bed_custom_model", Target.one "bed_custom_model"),
  ("bed_custom_texture", Target.one "bed_custom_texture"),
  ("before_layer_gcode", Target.one "before_layer_change_gcode"),
  ("toolchange_gcode", Target.one "change_filament_gcode"),
  ("default_filament_profile", Target.one "default_filament_profile"),
  ("default_print_profile", Target.one "default_print_profile"),
  ("deretract_speed", Target.one "deretraction_speed"),
  ("gcode_flavor", Target.one "gcode_flavor"),
  ("inherits", Target.one "inherits"),
  ("layer_gcode", Target.one "layer_change_gcode"),
  ("feature_gcode", Target.one "change_extrusion_role_gcode"),
  ("end_gcode", Target.one "machine_end_gcode"),
  ("machine_max_acceleration_e", Target.one "machine_max_acceleration_e"),
  ("machine_max_acceleration_extruding", Target.one "machine_max_acceleration_extruding"),
  ("machine_max_acceleration_retracting", Target.one "machine_max_acceleration_retracting"),
  ("machine_max_acceleration_travel", Target.one "machine_max_acceleration_travel"),
  ("machine_max_acceleration_x", Target.one "machine_max_acceleration_x"),
  ("machine_max_acceleration_y", Target.one "machine_max_acceleration_y"),
  ("machine_max_acceleration_z", Target.one "machine_max_acceleration_z"),
  ("machine_max_feedrate_e", Target.one "machine_max_speed_e"),
  ("machine_max_feedrate_x", Target.one "machine_max_speed_x"),
  ("machine_max_feedrate_y", Target.one "machine_max_speed_y"),
  ("machine_max_feedrate_z", Target.one "machine_max_speed_z"),
  ("machine_max_jerk_e", Target.one "machine_max_jerk_e"),
  ("machine_max_jerk_x", Target.one "machine_max_jerk_x"),
  ("machine_max_jerk_y", Target.one "machine_max_jerk_y"),
  ("machine_max_jerk_z", Target.one "machine_max_jerk_z"),
  ("machine_min_extruding_rate", Target.one "machine_min_extruding_rate"),
  ("machine_min_travel_rate", Target.one "machine_min_travel_rate"),
  ("pause_print_gcode", Target.one "machine_pause_gcode"),
  ("start_gcode", Target.one "machine_start_gcode"),
  ("max_layer_height", Target.one "max_layer_height"),
  ("min_layer_height", Target.one "min_layer_height"),
  ("nozzle_diameter", Target.one "nozzle_diameter"),
  ("print_host", Target.one "print_host"),
  ("printer_notes", Target.one "printer_notes"),
  ("bed_shape", Target.one "printable_area"),
  ("max_print_height", Target.one "printable_height"),
  ("printer_technology", Target.one "printer_technology"),
  ("printer_variant", Target.one "printer_variant"),
  ("retract_before_wipe", Target.one "retract_before_wipe"),
  ("retract_length_toolchange", Target.one "retract_length_toolchange"),
  ("retract_restart_extra_toolchange", Target.one "retract_restart_extra_toolchange"),
  ("retract_restart_extra", Target.one "retract_restart_extra"),
  ("retract_layer_change", Target.one "retract_when_changing_layer"),
  ("retract_length", Target.one "retraction_length"),
  ("retract_lift", Target.one "z_hop"),
  ("retract_lift_top", Target.one "retract_lift_enforce"),
  ("retract_before_travel", Target.one "retraction_minimum_travel"),
  ("retract_speed", Target.one "retraction_speed"),
  ("silent_mode", Target.one "silent_mode"),
  ("single_extruder_multi_material", Target.one "single_extruder_multi_material"),
  ("thumbnails", Target.one "thumbnails"),
  ("thumbnails_format", Target.one "thumbnails_format"),
  ("template_custom_gcode", Target.one "template_custom_gcode"),
  ("use_firmware_retraction", Target.one "use_firmware_retraction"),
  ("use_relative_e_distances", Target.one "use_relative_e_distances"),
  ("wipe", Target.one "wipe")
]

/-- The physical_printer entry of `PARAMETER_MAP`, transcribed verbatim. -/
def PARAMETER_MAP_physical_printer : List (String × Target) := [
  ("host_type", Target.pass),
  ("print_host", Target.pass),
  ("printer_technology", Target.pass),
  ("printhost_apikey", Target.pass),
  ("printhost_authorization_type", Target.pass),
  ("printhost_cafile", Target.pass),
  ("printhost_password", Target.pass),
  ("printhost_port", Target.pass),
  ("printhost_ssl_ignore_revoke", Target.pass),
  ("printhost_user", Target.pass)
]

/-- Table `MULTIVALUE_PARAMS` of the source, transcribed verbatim. -/
def MULTIVALUE_PARAMS : List (String × String) := [
  ("max_layer_height", "single"),
  ("min_layer_height", "single"),
  ("deretract_speed", "single"),
  ("default_filament_profile", "single"),
  ("machine_max_acceleration_e", "array"),
  ("machine_max_acceleration_extruding", "array"),
  ("machine_max_acceleration_retracting", "array"),
  ("machine_max_acceleration_travel", "array"),
  ("machine_max_acceleration_x", "array"),
  ("machine_max_acceleration_y", "array"),
  ("machine_max_acceleration_z", "array"),
  ("machine_max_feedrate_e", "array"),
  ("machine_max_feedrate_x", "array"),
  ("machine_max_feedrate_y", "array"),
  ("machine_max_feedrate_z", "array"),
  ("machine_max_jerk_e", "array"),
  ("machine_max_jerk_x", "array"),
  ("machine_max_jerk_y", "array"),
  ("machine_max_jerk_z", "array"),
  ("machine_min_extruding_rate", "array"),
  ("machine_min_travel_rate", "array"),
  ("nozzle_diameter", "single"),
  ("bed_shape", "array"),
  ("retract_before_wipe", "single"),
  ("retract_length_toolchange", "single"),
  ("retract_restart_extra_toolchange", "single"),
  ("retract_restart_extra", "single"),
  ("retract_layer_change", "single"),
  ("retract_length", "single"),
  ("retract_lift", "single"),
  ("retract_before_travel", "single"),
  ("retract_speed", "single"),
  ("thumbnails", "array"),
  ("extruder_offset", "single"),
  ("retract_lift_above", "single"),
  ("retract_lift_below", "single"),
  ("wipe", "single")
]

/-- Table `FILAMENT_TYPES` of the source, transcribed verbatim. -/
def FILAMENT_TYPES : List (String × String) := [
  ("PET", "PETG"),
  ("FLEX", "TPU"),
  ("NYLON", "PA")
]

/-- Table `DEFAULT_MVS` of the source, transcribed verbatim. -/
def DEFAULT_MVS : List (String × String) := [
  ("PLA", "15"),
  ("PET", "10"),
  ("ABS", "12"),
  ("ASA", "12"),
  ("FLEX", "3.2"),
  ("NYLON", "12"),
  ("PVA", "12"),
  ("PC", "12"),
  ("PSU", "8"),
  ("HIPS", "8"),
  ("EDGE", "8"),
  ("NGEN", "8"),
  ("PP", "8"),
  ("PEI", "8"),
  ("PEEK", "8"),
  ("PEKK", "8"),
  ("POM", "8"),
  ("PVDF", "8"),
  ("SCAFF", "8")
]

/-- Set `SPEED_SEQUENCE` of the source, transcribed verbatim. -/
def SPEED_SEQUENCE : List String := [
  "perimeter_speed",
  "external_perimeter_speed",
  "solid_infill_speed",
  "infill_speed",
  "small_perimeter_speed",
  "top_solid_infill_speed",
  "gap_fill_speed",
  "support_material_speed",
  "support_material_interface_speed",
  "bridge_speed",
  "first_layer_speed",
  "first_layer_infill_speed"
]

/-- Table `SPEED_PARAMS` of the source, transcribed verbatim. -/
def SPEED_PARAMS : List (String × String) := [
  ("perimeter_speed", "inner_wall_speed"),
  ("external_perimeter_speed", "outer_wall_speed"),
  ("small_perimeter_speed", "small_perimeter_speed"),
  ("solid_infill_speed", "internal_solid_infill_speed"),
  ("infill_speed", "sparse_infill_speed"),
  ("top_solid_infill_speed", "top_surface_speed"),
  ("gap_fill_speed", "gap_infill_speed"),
  ("support_material_speed", "support_speed"),
  ("support_material_interface_speed", "support_interface_speed"),
  ("bridge_speed", "bridge_speed"),
  ("first_layer_speed", "initial_layer_speed"),
  ("first_layer_infill_speed", "initial_layer_infill_speed")
]

/-- Table `SEAM_POSITIONS` of the source, transcribed verbatim. -/
def SEAM_POSITIONS : List (String × String) := [
  ("cost", "nearest"),
  ("random", "random"),
  ("allrandom", "random"),
  ("aligned", "aligned"),
  ("contiguous", "aligned"),
  ("rear", "back"),
  ("nearest", "nearest")
]

/-- Table `INFILL_TYPES` of the source, transcribed verbatim. -/
def INFILL_TYPES : List (String × String) := [
  ("3dhoneycomb", "3dhoneycomb"),
  ("adaptivecubic", "adaptivecubic"),
  ("alignedrectilinear", "alignedrectilinear"),
  ("archimedeanchords", "archimedeanchords"),
  ("concentric", "concentric"),
  ("concentricgapfill", "concentric"),
  ("cubic", "cubic"),
  ("grid", "grid"),
  ("gyroid", "gyroid"),
  ("hilbertcurve", "hilbertcurve"),
  ("honeycomb", "honeycomb"),
  ("lightning", "lightning"),
  ("line", "line"),
  ("monotonic", "monotonic"),
  ("monotonicgapfill", "monotonic"),
  ("monotoniclines", "monotonicline"),
  ("octagramspiral", "octagramspiral"),
  ("rectilinear", "zig-zag"),
  ("rectilineargapfill", "zig-zag"),
  ("rectiwithperimeter", "zig-zag"),
  ("sawtooth", "zig-zag"),
  ("scatteredrectilinear", "zig-zag"),
  ("smooth", "monotonic"),
  ("smoothhilbert", "hilbertcurve"),
  ("smoothtriple", "triangles"),
  ("stars", "tri-hexagon"),
  ("supportcubic", "supportcubic"),
  ("triangles", "triangles")
]

/-- Table `SUPPORT_STYLES` of the source, transcribed verbatim. -/
def SUPPORT_STYLES : List (String × String × String) := [
  ("grid", "normal", "grid"),
  ("snug", "normal", "snug"),
  ("tree", "tree", "default"),
  ("organic", "tree", "organic")
]

/-- Set `SUPPORT_PATTERNS` of the source, transcribed verbatim. -/
def SUPPORT_PATTERNS : List String := [
  "default",
  "hollow",
  "honeycomb",
  "lightning",
  "rectilinear",
  "rectilinear-grid"
]

/-- Set `INTERFACE_PATTERNS` of the source, transcribed verbatim. -/
def INTERFACE_PATTERNS : List String := [
  "auto",
  "concentric",
  "grid",
  "rectilinear",
  "rectilinear_interlaced"
]

/-- Table `GCODE_FLAVORS` of the source, transcribed verbatim. -/
def GCODE_FLAVORS : List (String × String) := [
  ("klipper", "klipper"),
  ("mach3", "reprapfirmware"),
  ("machinekit", "reprapfirmware"),
  ("makerware", "reprapfirmware"),
  ("marlin", "marlin"),
  ("marlin2", "marlin2"),
  ("no-extrusion", "reprapfirmware"),
  ("repetier", "reprapfirmware"),
  ("reprap", "reprapfirmware"),
  ("reprapfirmware", "reprapfirmware"),
  ("sailfish", "reprapfirmware"),
  ("smoothie", "reprapfirmware"),
  ("teacup", "reprapfirmware"),
  ("sprinter", "reprapfirmware")
]

/-- Table `HOST_TYPES` of the source, transcribed verbatim. -/
def HOST_TYPES : List (String × String) := [
  ("repetier", "repetier"),
  ("prusalink", "prusalink"),
  ("prusaconnect", "prusaconnect"),
  ("octoprint", "octoprint"),
  ("moonraker", "octoprint"),
  ("mks", "mks"),
  ("klipper", "octoprint"),
  ("flashair", "flashair"),
  ("duet", "duet"),
  ("astrobox", "astrobox")
]

/-- Table `ZHOP_ENFORCEMENT` of the source, transcribed verbatim. -/
def ZHOP_ENFORCEMENT : List (String × String) := [
  ("All surfaces", "All Surfaces"),
  ("Not on top", "Bottom Only"),
  ("Only on top", "Top Only")
]

/-- Table `THUMBNAIL_FORMAT` of the source, transcribed verbatim. -/
def THUMBNAIL_FORMAT : List (String × String) := [
  ("PNG", "PNG"),
  ("JPG", "JPG"),
  ("QOI", "QOI"),
  ("BIQU", "BTT_TFT")
]

/-- Constant `ORCA_SLICER_VERSION`. -/
def ORCA_SLICER_VERSION : String := "1.6.0.0"

/-- Truthiness test of the pattern `x in ('1', 'true')`. -/
def pyBoolFlag (s : String) : Bool := s = "1" || s = "true"

/-- Trailing percent test on a character list. -/
def endsPct (cs : List Char) : Bool :=
  match cs.getLast? with
  | some c => c = '%'
  | none => false

/-- Method `is_decimal`. -/
def is_decimal (s : String) : Bool :=
  let t := stripL s.data
  if endsPct t then false else (pyFloatParse (String.mk t)).isSome

/-- Method `is_decimal` applied to a converter value; `str()` of a list is
never a decimal. -/
def is_decimalV : VVal → Bool
  | .str s => is_decimal s
  | .arr _ => false

/-- Method `is_percent`. -/
def is_percent (s : String) : Bool :=
  let t := stripL s.data
  if endsPct t then (pyFloatParse (String.mk t.dropLast)).isSome else false

/-- Method `remove_percent`. -/
def remove_percent (s : String) : String :=
  rstripChar '%' (pyStrip s)

/-- Method `multivalue_to_array`. -/
def multivalue_to_array : Option String → List String
  | none => []
  | some s =>
    if s = "" then []
    else
      let d := if s.data.contains ',' then ',' else ';'
      (splitCharL d s.data).map fun cs => String.mk (stripL cs)

/-- Method `percent_to_float`: non-percent values are returned unchanged,
percent values are divided by 100 and saturated at 2. -/
def percent_to_float (s : String) : String :=
  if !is_percent s then s
  else
    match pyFloatParse (remove_percent s) with
    | some q => if 2 < qdiv q 100 then "2" else ratStr (qdiv q 100)
    | none => s

/-- Method `percent_to_mm` (numerics exact; CPython computes in binary64,
see the `fp64` analysis). -/
def percent_to_mm : Option String → Option String → Option String
  | none, _ => none
  | _, none => none
  | some mc, some pp =>
    let mm_str := pyStrip mc
    let percent_str := pyStrip pp
    if mm_str = "" || percent_str = "" then none
    else if !is_percent percent_str then some percent_str
    else if is_percent mm_str then none
    else
      match pyFloatParse mm_str, pyFloatParse (remove_percent percent_str) with
      | some a, some b => some (ratStr (a * qdiv b 100))
      | _, _ => none

/-- Method `mm_to_percent`. -/
def mm_to_percent (mm_comparator : Option String) (mm_param : String) : Option String :=
  if is_percent mm_param then some mm_param
  else if (match mm_comparator with | some c => is_percent c | none => false) then none
  else
    match mm_comparator with
    | none => none
    | some c =>
      match pyFloatParse mm_param, pyFloatParse c with
      | some a, some b => if b = 0 then none else some (ratStr (qdiv a b * 100) ++ "%")
      | _, _ => none

/-- Method `unbackslash_gcode`: strip one pair of surrounding double
quotes, then rewrite the escape sequences in the order of the source. -/
def unbackslash_gcode (v : String) : List String :=
  let cs := v.data
  let cs := if cs.head? = some '"' && cs.getLast? = some '"' then (cs.drop 1).dropLast else cs
  let s := String.mk cs
  let s := pyReplace "\\n" "\n" s
  let s := pyReplace "\\t" "\t" s
  let s := pyReplace "\\\\" "\\" s
  [s]

/-- Method `evaluate_print_order`, the four-case table with the dead final
fallback of the source preserved. -/
def evaluate_print_order (external_perimeters_first infill_first : Bool) : String :=
  if !external_perimeters_first && !infill_first then "inner wall/outer wall/infill"
  else if external_perimeters_first && !infill_first then "outer wall/inner wall/infill"
  else if !external_perimeters_first && infill_first then "infill/inner wall/outer wall"
  else if external_perimeters_first && infill_first then "infill/outer wall/inner wall"
  else "inner wall/outer wall/infill"

/-- Method `evaluate_ironing_type`; an empty tracked value is falsy. -/
def evaluate_ironing_type (ironing : Bool) (ironing_type : Option String) : String :=
  if ironing then
    match ironing_type with
    | some s => if s = "" then "no ironing" else s
    | none => "no ironing"
  else "no ironing"

/-- The header pattern of `ini_reader`
(`# generated by <token>`, case-insensitive): the captured flavor token. -/
def header_flavor_line (line : String) : Option String :=
  match line.data with
  | '#' :: rest =>
    let r1 := rest.dropWhile isWS
    if ciPrefix "generated".data r1 then
      let r2 := r1.drop 9
      match r2.head? with
      | some c =>
        if isWS c then
          let r3 := r2.dropWhile isWS
          if ciPrefix "by".data r3 then
            let r4 := r3.drop 2
            match r4.head? with
            | some c2 =>
              if isWS c2 then
                let tok := (r4.dropWhile isWS).takeWhile (fun x => !isWS x)
                if tok.isEmpty then none else some (String.mk tok)
              else none
            | none => none
          else none
        else none
      | none => none
    else none
  | _ => none

/-- The skip pattern of `ini_reader` for blank and comment lines. -/
def isBlankOrComment (line : String) : Bool :=
  match (line.data.dropWhile isWS).head? with
  | none => true
  | some c => c = '#'

/-- Method `ini_reader` over the document's lines: the detected flavor (the
last header line wins) and the parsed key/value dict.  The `dirs`
bookkeeping of the source is filesystem glue and not modelled. -/
def ini_reader_lines (lines : List String) : Option String × Ini :=
  lines.foldl
    (fun acc line =>
      match header_flavor_line line with
      | some f => (some f, acc.2)
      | none =>
        if isBlankOrComment line then acc
        else
          match splitOnce '=' line.data with
          | some (a, b) => (acc.1, dictInsert acc.2 (String.mk (stripL a)) (String.mk (stripL b)))
          | none => acc)
    (none, [])

/-- Number of keys of the parsed document appearing in the given parameter
key list. -/
def countMatches (source_ini : Ini) (params : List String) : ℕ :=
  (source_ini.filter fun kv => strMem kv.1 params).length

/-- Key set of the print parameter mapping. -/
def printParamKeys : List String := PARAMETER_MAP_print.map Prod.fst

/-- Key set of the filament parameter mapping. -/
def filamentParamKeys : List String := PARAMETER_MAP_filament.map Prod.fst

/-- Key set of the printer parameter mapping. -/
def printerParamKeys : List String := PARAMETER_MAP_printer.map Prod.fst

/-- Python `str.lower()`. -/
def pyLower (s : String) : String := String.mk (s.data.map Char.toLower)

/-- Method `detect_ini_type`: an explicit `ini_type` marker wins
(case-normalised); otherwise key overlap is counted per kind in the fixed
iteration order print, filament, printer (physical_printer is skipped),
`None` results when every count is below 10, and Python `max` over the
count dict returns the first kind attaining the maximal count. -/
def detect_ini_type (source_ini : Ini) : Option String :=
  match alookup source_ini "ini_type" with
  | some v => some (pyLower v)
  | none =>
    let cp := countMatches source_ini printParamKeys
    let cf := countMatches source_ini filamentParamKeys
    let cr := countMatches source_ini printerParamKeys
    if cp < 10 ∧ cf < 10 ∧ cr < 10 then none
    else
      let best1 := if cp < cf then "filament" else "print"
      let c1 := if cp < cf then cf else cp
      some (if c1 < cr then "printer" else best1)

/-- `PARAMETER_MAP.get(ini_type, {})`. -/
def param_map_for (ini_type : String) : List (String × Target) :=
  if ini_type = "print" then PARAMETER_MAP_print
  else if ini_type = "filament" then PARAMETER_MAP_filament
  else if ini_type = "printer" then PARAMETER_MAP_printer
  else if ini_type = "physical_printer" then PARAMETER_MAP_physical_printer
  else []

/-- The gcode block parameter list of `convert_params`. -/
def gcode_params : List String := [
  "start_filament_gcode", "end_filament_gcode", "post_process",
  "before_layer_gcode", "toolchange_gcode", "layer_gcode",
  "feature_gcode", "end_gcode", "pause_print_gcode", "start_gcode",
  "template_custom_gcode", "notes", "filament_notes", "printer_notes"]

/-- The keys of the `percent_to_mm_params` dict of `convert_params`; every
entry references the tracked nozzle size. -/
def percent_to_mm_params : List String := [
  "max_layer_height", "min_layer_height", "fuzzy_skin_point_dist",
  "fuzzy_skin_thickness", "small_perimeter_min_length"]

/-- The bracket-to-brace rewrite of the `output_filename_format` rule. -/
def bracketSwap (s : String) : String :=
  String.mk (s.data.map fun c =>
    if c = '[' then Char.ofNat 123 else if c = ']' then Char.ofNat 125 else c)

/-- Python `float(value)` on a converter value; a list raises TypeError,
which every caller catches. -/
def pyFloatV : VVal → Option ℚ
  | .str s => pyFloatParse s
  | .arr _ => none

/-- Python `int(value)` on a converter value. -/
def pyIntV : VVal → Option ℤ
  | .str s => pyIntParse s
  | .arr _ => none

/-- Equality of a converter value with a string literal; a Python list
never equals a string. -/
def eqS (v : VVal) (s : String) : Bool :=
  match v with
  | .str t => t = s
  | .arr _ => false

/-- The `filament_type`-based default of the `filament_max_volumetric_speed`
rule. -/
def defaultMvs (source_ini : Ini) : Option VVal :=
  let ft := (alookup source_ini "filament_type").getD "PLA"
  some (.str ((alookup DEFAULT_MVS ft).getD "15"))

/-- The `return result if result else new_value` fallback of the four-entry
speed conversion table; `None` and the empty string are falsy. -/
def speedFallback (r : Option String) (v : VVal) : Option VVal :=
  match r with
  | some s => if s = "" then some v else some (.str s)
  | none => some v

/-- The value computation of method `convert_params` for one parameter,
translated branch by branch in source order.  The two mutations the Python
method performs on shared state -- the `support_material_style` writes into
`self.new_hash` and the `ironing_type` tracking assignment into
`self.status` -- are factored out into `cpHashWrites` and `cpIroningSet`;
this function returns the value (`none` models both a missing or `nil`
source value and a rule returning `None`, which the caller drops).
`new_hash` is the record built so far (read by the cross-referencing speed
rules); `nozzle_size` is the tracked nozzle size of the status. -/
def convertParamsVal (slicer_flavor : Option String) (nozzle_size : Option String)
    (new_hash : Hash) (source_ini : Ini) (parameter : String) : Option VVal :=
  match alookup source_ini parameter with
  | none => none
  | some raw =>
  if raw = "nil" then none
  else
    let flavorEff := match slicer_flavor with
      | some s => if s = "" then "PrusaSlicer" else s
      | none => "PrusaSlicer"
    let v : VVal :=
      match alookup MULTIVALUE_PARAMS parameter with
      | some mode =>
        let a := multivalue_to_array (some raw)
        if mode = "single" then
          match a with
          | x :: _ => .str x
          | [] => .str raw
        else .arr a
      | none => .str raw
    let default_speed : Option String :=
      if flavorEff = "SuperSlicer" then alookup source_ini "default_speed" else none
    if strMem parameter gcode_params then some (.arr (unbackslash_gcode (pyStrV v)))
    else if parameter = "filament_type" then
      some (.str ((alookup FILAMENT_TYPES (pyStrV v)).getD (pyStrV v)))
    else if parameter = "filament_max_volumetric_speed" then
      match pyFloatV v with
      | some q => if 0 < q then some (.str (pyStrV v)) else defaultMvs source_ini
      | none => defaultMvs source_ini
    else if parameter = "draft_shield" then
      if eqS v "disabled" then some (.str "0")
      else if eqS v "enabled" then some (.str "1")
      else some v
    else if parameter = "external_perimeter_fan_speed" then
      match pyIntV v with
      | some n => if n < 0 then some (.str "0%") else some (.str (toString n ++ "%"))
      | none => some (.str "0%")
    else if parameter = "ironing_type" then some v
    else if parameter = "default_filament_profile" then
      match multivalue_to_array (some (pyStrV v)) with
      | x :: _ => some (.str ((unbackslash_gcode x).headD ""))
      | [] => some (.str "")
    else if parameter = "retract_lift_top" then
      match multivalue_to_array (some (pyStrV v)) with
      | x :: _ =>
        let u := (unbackslash_gcode x).headD ""
        some (.str ((alookup ZHOP_ENFORCEMENT u).getD u))
      | [] => some (.str "")
    else if strMem parameter percent_to_mm_params then
      (percent_to_mm nozzle_size (some (pyStrV v))).map VVal.str
    else if parameter = "bridge_flow_ratio" || parameter = "fill_top_flow_ratio"
        || parameter = "first_layer_flow_ratio" then
      some (.str (percent_to_float (pyStrV v)))
    else if parameter = "wall_transition_length" then
      (mm_to_percent nozzle_size (pyStrV v)).map VVal.str
    else if parameter = "machine_limits_usage" then
      some (.str (if eqS v "emit_to_gcode" then "1" else "0"))
    else if parameter = "remaining_times" then
      some (.str (if eqS v "1" then "0" else "1"))
    else if parameter = "support_material_bottom_contact_distance" then
      if eqS v "0" then some (.str ((alookup source_ini "support_material_contact_distance").getD "0"))
      else some v
    else if parameter = "support_material_style" then none
    else if parameter = "fill_pattern" || parameter = "top_fill_pattern"
        || parameter = "bottom_fill_pattern" || parameter = "solid_fill_pattern" then
      some (.str ((alookup INFILL_TYPES (pyStrV v)).getD (pyStrV v)))
    else if parameter = "gcode_flavor" then
      (alookup GCODE_FLAVORS (pyStrV v)).map VVal.str
    else if parameter = "host_type" then
      (alookup HOST_TYPES (pyStrV v)).map VVal.str
    else if parameter = "thumbnails_format" then
      some (.str ((alookup THUMBNAIL_FORMAT (pyStrV v)).getD (pyStrV v)))
    else if parameter = "support_material_pattern" then
      some (.str (if strMem (pyStrV v) SUPPORT_PATTERNS then pyStrV v else "default"))
    else if parameter = "support_material_interface_pattern" then
      some (.str (if strMem (pyStrV v) INTERFACE_PATTERNS then pyStrV v else "auto"))
    else if parameter = "seam_position" then
      some (.str ((alookup SEAM_POSITIONS (pyStrV v)).getD (pyStrV v)))
    else if parameter = "support_material_layer_height" then
      match pyFloatV v with
      | some q => some (.str (if 0 < q then "1" else "0"))
      | none => some (.str "0")
    else if parameter = "output_filename_format" then
      some (.str (bracketSwap (pyStrV v)))
    else if parameter = "support_material_xy_spacing" then
      match percent_to_mm (alookup source_ini "external_perimeter_extrusion_width") (some (pyStrV v)) with
      | some r => some (.str r)
      | none => (percent_to_mm nozzle_size (some (pyStrV v))).map VVal.str
    else if parameter = "extrusion_width" then
      if eqS v "" then some (.str "0") else some v
    else if parameter = "infill_every_layers" then
      match pyIntV v with
      | some n => some (.str (if 0 < n then "1" else "0"))
      | none => some (.str "0")
    else if parameter = "complete_objects" then
      some (.str (if eqS v "1" || eqS v "true" then "by object" else "by layer"))
    else if parameter = "external_perimeter_speed" then
      speedFallback (percent_to_mm (alookup source_ini "perimeter_speed") (some (pyStrV v))) v
    else if parameter = "first_layer_speed" then
      speedFallback (percent_to_mm (alookup source_ini "perimeter_speed") (some (pyStrV v))) v
    else if parameter = "top_solid_infill_speed" then
      speedFallback (percent_to_mm ((alookup new_hash "internal_solid_infill_speed").map pyStrV) (some (pyStrV v))) v
    else if parameter = "support_material_interface_speed" then
      speedFallback (percent_to_mm (alookup source_ini "support_material_speed") (some (pyStrV v))) v
    else if parameter = "first_layer_infill_speed" then
      if flavorEff = "PrusaSlicer" then
        (percent_to_mm (alookup source_ini "infill_speed") (alookup source_ini "first_layer_speed")).map VVal.str
      else (percent_to_mm (alookup source_ini "infill_speed") (some (pyStrV v))).map VVal.str
    else if parameter = "solid_infill_speed" then
      (percent_to_mm (if flavorEff = "PrusaSlicer" then alookup source_ini "infill_speed" else default_speed)
        (some (pyStrV v))).map VVal.str
    else if (parameter = "perimeter_speed" || parameter = "support_material_speed"
        || parameter = "bridge_speed") && flavorEff = "SuperSlicer" then
      (percent_to_mm default_speed (some (pyStrV v))).map VVal.str
    else if parameter = "infill_speed" && flavorEff = "SuperSlicer" then
      (percent_to_mm ((alookup new_hash "internal_solid_infill_speed").map pyStrV) (some (pyStrV v))).map VVal.str
    else if parameter = "small_perimeter_speed" && flavorEff = "SuperSlicer" then
      (percent_to_mm ((alookup new_hash "sparse_infill_speed").map pyStrV) (some (pyStrV v))).map VVal.str
    else if parameter = "gap_fill_speed" && flavorEff = "SuperSlicer" then
      (percent_to_mm ((alookup new_hash "sparse_infill_speed").map pyStrV) (some (pyStrV v))).map VVal.str
    else some v

/-- The `self.new_hash` writes performed inside `convert_params`; only the
`support_material_style` branch writes. -/
def cpHashWrites (source_ini : Ini) (parameter : String) : List (String × VVal) :=
  if parameter = "support_material_style" then
    match alookup source_ini parameter with
    | none => []
    | some raw =>
      if raw = "nil" then []
      else
        match alookup SUPPORT_STYLES raw with
        | some st =>
          let genstyle := if (alookup source_ini "support_material_auto").getD "0" = "1" then "auto" else "manual"
          [("support_type", .str (st.1 ++ "(" ++ genstyle ++ ")")), ("support_style", .str st.2)]
        | none => []
  else []

/-- The ironing-type tracking assignment performed inside `convert_params`;
only the `ironing_type` branch assigns, and only when the value is present
and not `nil`. -/
def cpIroningSet (source_ini : Ini) (parameter : String) : Option String :=
  if parameter = "ironing_type" then
    match alookup source_ini parameter with
    | none => none
    | some raw => if raw = "nil" then none else some raw
  else none

/-- Apply a list of dict writes in order. -/
def applyWrites (h : Hash) (ws : List (String × VVal)) : Hash :=
  ws.foldl (fun hh kv => dictInsert hh kv.1 kv.2) h

/-- Write a converted value to its mapped target key or keys.  For the
physical_printer pass-through marker the Python code writes the dict key
`True` itself rather than the parameter name; that key is modelled by the
string of its repr. -/
def writeTargets (h : Hash) (tgt : Target) (v : VVal) : Hash :=
  match tgt with
  | .one k => dictInsert h k v
  | .many ks => ks.foldl (fun hh k => dictInsert hh k v) h
  | .pass => dictInsert h "True" v

/-- Numeric reading of a converted value for the temperature maximum
(`float` of the value, or of its first element for a list; an empty list
would raise an uncaught IndexError in Python and cannot occur on the
temperature parameters). -/
def tempOf : VVal → Option ℚ
  | .str s => pyFloatParse s
  | .arr (x :: _) => pyFloatParse x
  | .arr [] => none

/-- The per-parameter translation loop of `convert_profile`: walk the
parsed entries in order, skip `profile_name` and unmapped keys, invoke the
conversion, apply its state effects, write the targets, and track the
temperature maximum.  Returns the record, the ironing tracker and the
temperature maximum. -/
def param_loop (slicer_flavor : Option String) (ini_type : String) (nozzle_size : Option String)
    (source_ini : Ini) : List (String × String) → Hash → Option String → ℚ → Hash × Option String × ℚ
  | [], h, iro, m => (h, iro, m)
  | (p, _) :: rest, h, iro, m =>
    if p = "profile_name" then param_loop slicer_flavor ini_type nozzle_size source_ini rest h iro m
    else
      match alookup (param_map_for ini_type) p with
      | none => param_loop slicer_flavor ini_type nozzle_size source_ini rest h iro m
      | some tgt =>
        let v := convertParamsVal slicer_flavor nozzle_size h source_ini p
        let h1 := applyWrites h (cpHashWrites source_ini p)
        let iro1 := match cpIroningSet source_ini p with
          | some x => some x
          | none => iro
        match v with
        | none => param_loop slicer_flavor ini_type nozzle_size source_ini rest h1 iro1 m
        | some vv =>
          let h2 := writeTargets h1 tgt vv
          let m1 :=
            if p = "first_layer_temperature" || p = "temperature" then
              match tempOf vv with
              | some t => if m < t then t else m
              | none => m
            else m
          param_loop slicer_flavor ini_type nozzle_size source_ini rest h2 iro1 m1

/-- The speed-cascade loop of `calculate_print_params`, with the same state
threading as `param_loop`. -/
def speed_loop (slicer_flavor : Option String) (nozzle_size : Option String) (source_ini : Ini) :
    List String → Hash → Option String → Hash × Option String
  | [], h, iro => (h, iro)
  | p :: rest, h, iro =>
    if (alookup source_ini p).isNone then speed_loop slicer_flavor nozzle_size source_ini rest h iro
    else
      let v := convertParamsVal slicer_flavor nozzle_size h source_ini p
      let h1 := applyWrites h (cpHashWrites source_ini p)
      let iro1 := match cpIroningSet source_ini p with
        | some x => some x
        | none => iro
      match v with
      | none => speed_loop slicer_flavor nozzle_size source_ini rest h1 iro1
      | some vv =>
        let vv2 := if is_decimalV vv then
            match pyFloatV vv with
            | some q => VVal.str (fmt1 q)
            | none => vv
          else vv
        let h2 := dictInsert h1 ((alookup SPEED_PARAMS p).getD "") (.str (pyStrV vv2))
        speed_loop slicer_flavor nozzle_size source_ini rest h2 iro1

/-- Method `calculate_print_params`: speed cascade, dynamic overhang
speeds, wall order phrase and ironing phrase.  Returns the updated record
and the ironing tracker after the speed loop. -/
def calculate_print_params (slicer_flavor : Option String) (nozzle_size : Option String)
    (ironing_type : Option String) (source_ini : Ini) (h : Hash) : Hash × Option String :=
  let sl := speed_loop slicer_flavor nozzle_size source_ini SPEED_SEQUENCE h ironing_type
  let h1 := sl.1
  let enable := (alookup source_ini "enable_dynamic_overhang_speeds").getD "0" = "1"
  let h2 := dictInsert h1 "enable_overhang_speed" (.str (if enable then "1" else "0"))
  let h3 :=
    if enable then
      let speeds :=
        if slicer_flavor = some "SuperSlicer" then
          multivalue_to_array (some ((alookup source_ini "dynamic_overhang_speeds").getD ""))
        else
          [(alookup source_ini "overhang_speed_0").getD "",
           (alookup source_ini "overhang_speed_1").getD "",
           (alookup source_ini "overhang_speed_2").getD "",
           (alookup source_ini "overhang_speed_3").getD ""]
      if 4 ≤ speeds.length then
        dictInsert (dictInsert (dictInsert (dictInsert h2
          "overhang_1_4_speed" (.str (speeds.getD 3 "")))
          "overhang_2_4_speed" (.str (speeds.getD 2 "")))
          "overhang_3_4_speed" (.str (speeds.getD 1 "")))
          "overhang_4_4_speed" (.str (speeds.getD 0 ""))
      else h2
    else h2
  let ext := pyBoolFlag ((alookup source_ini "external_perimeters_first").getD "0")
  let inf := pyBoolFlag ((alookup source_ini "infill_first").getD "0")
  let h4 := dictInsert h3 "wall_infill_order" (.str (evaluate_print_order ext inf))
  let iron := pyBoolFlag ((alookup source_ini "ironing").getD "0")
  (dictInsert h4 "ironing_type" (.str (evaluate_ironing_type iron sl.2)), sl.2)

/-- Python `int()` truncation toward zero on the exact value. -/
def pyTrunc (q : ℚ) : ℤ := Int.tdiv q.num (q.den : ℤ)

/-- The mutable converter status fields that influence conversion output
(`self.status` of `SlicerConverter`; directory bookkeeping and flags that
never affect an output record are not modelled; the three `to_var`
trackers are carried for completeness although the source never reads
them back). -/
structure CStatus where
  slicer_flavor : Option String
  ini_type : Option String
  profile_name : Option String
  max_temp : ℚ
  ironing_type : Option String
  nozzle_size : Option String
  tv_ext : Option Bool
  tv_inf : Option Bool
  tv_iro : Option Bool
deriving DecidableEq, Repr

/-- The freshly initialised status of the converter constructor. -/
def freshStatus : CStatus :=
  { slicer_flavor := none, ini_type := none, profile_name := none, max_temp := 0,
    ironing_type := none, nozzle_size := none, tv_ext := none, tv_inf := none, tv_iro := none }

/-- Python truthiness of an optional string; `None` and the empty string
are falsy. -/
def pyTruthyOpt : Option String → Bool
  | none => false
  | some s => !(s = "")

/-- Python `a or b` on optional strings. -/
def pyOrOpt (a b : Option String) : Option String :=
  match a with
  | some s => if s = "" then b else some s
  | none => b

/-- Method `convert_profile`: parse, flavor and kind gates, nozzle-size
resolution, per-parameter loop, metadata, and kind-specific post
processing.  The document is given as its lines plus the file stem.  The
third Python argument `on_existing` is accepted by the method and, as in
the source, never used, so it is omitted here. -/
def convert_profile (st : CStatus) (lines : List String) (stem : String)
    (nozzle_size : Option String) : (Option Hash × String × String) × CStatus :=
  let pr := ini_reader_lines lines
  let source_ini := pr.2
  let st1 := { st with slicer_flavor := match pr.1 with | some f => some f | none => st.slicer_flavor }
  if !pyTruthyOpt st1.slicer_flavor then ((none, "unsupported", stem), st1)
  else
    match pyOrOpt st1.ini_type (detect_ini_type source_ini) with
    | none => ((none, "unsupported", stem), st1)
    | some it =>
      if it = "" then ((none, "unsupported", stem), st1)
      else
        let profile_name := (alookup source_ini "profile_name").getD stem
        let st2 := { st1 with ini_type := some it, profile_name := some profile_name }
        let st3 :=
          if (alookup source_ini "nozzle_diameter").isSome then
            { st2 with nozzle_size :=
                match multivalue_to_array (alookup source_ini "nozzle_diameter") with
                | x :: _ => some x
                | [] => nozzle_size }
          else if pyTruthyOpt nozzle_size then { st2 with nozzle_size := nozzle_size }
          else if it = "print" && (alookup source_ini "layer_height").isSome then
            let nsv := match pyFloatParse ((alookup source_ini "layer_height").getD "") with
              | some q => ratStr (2 * q)
              | none => "0.4"
            { st2 with nozzle_size := some nsv }
          else st2
        let st4 := { st3 with
          tv_ext := match alookup source_ini "external_perimeters_first" with
            | some x => some (pyBoolFlag x)
            | none => st3.tv_ext,
          tv_inf := match alookup source_ini "infill_first" with
            | some x => some (pyBoolFlag x)
            | none => st3.tv_inf,
          tv_iro := match alookup source_ini "ironing" with
            | some x => some (pyBoolFlag x)
            | none => st3.tv_iro }
        let lr := param_loop st4.slicer_flavor it st4.nozzle_size source_ini source_ini [] st4.ironing_type st4.max_temp
        let h2 := dictInsert (dictInsert (dictInsert (dictInsert (dictInsert lr.1
          (it ++ "_settings_id") (.str profile_name))
          "name" (.str profile_name))
          "from" (.str "User"))
          "is_custom_defined" (.str "1"))
          "version" (.str ORCA_SLICER_VERSION)
        if it = "filament" then
          let h3 := dictInsert h2 "nozzle_temperature_range_low" (.str "0")
          let h4 := dictInsert h3 "nozzle_temperature_range_high" (.str (toString (pyTrunc lr.2.2)))
          let h5 :=
            match alookup source_ini "slowdown_below_layer_time" with
            | none => h4
            | some sv =>
              match pyFloatParse sv with
              | some q => dictInsert h4 "slow_down_for_layer_cooling" (.str (if 0 < q then "1" else "0"))
              | none => h4
          ((some h5, it, profile_name),
           { st4 with ironing_type := lr.2.1, max_temp := lr.2.2 })
        else if it = "print" then
          let cp := calculate_print_params st4.slicer_flavor st4.nozzle_size lr.2.1 source_ini h2
          ((some cp.1, it, profile_name),
           { st4 with ironing_type := cp.2, max_temp := lr.2.2 })
        else
          ((some h2, it, profile_name),
           { st4 with ironing_type := lr.2.1, max_temp := lr.2.2 })

/-- One input file of the batch loop of `main`: its lines, its stem, and
the previously written output document when the destination file exists. -/
structure FileIn where
  lines : List String
  stem : String
  existing : Option Hash

/-- The merge of `main` under the merge policy: keys absent from the
existing document are added from the new data; existing keys keep their
value. -/
def merge_existing (existing data : Hash) : Hash :=
  data.foldl (fun ex kv => if (alookup ex kv.1).isSome then ex else dictInsert ex kv.1 kv.2) existing

/-- The per-file body of the batch loop of `main` (non-interactive path):
convert, apply the existing-file policy, and reset the per-conversion
context only on the path that reaches a successful write -- exactly as the
source places the reset after its `continue` statements. -/
def process_file (policy : String) (pinned : Option String) (nz : Option String)
    (st : CStatus) (f : FileIn) : Option Hash × CStatus :=
  let r := convert_profile st f.lines f.stem nz
  let st1 := r.2
  match r.1.1 with
  | none => (none, st1)
  | some data =>
    let write : Option Hash :=
      match f.existing with
      | some ex =>
        if policy = "skip" then none
        else if policy = "merge" then some (merge_existing ex data)
        else some data
      | none => some data
    match write with
    | none => (none, st1)
    | some d => (some d, { st1 with ini_type := pinned, max_temp := 0, ironing_type := none })

/-- The batch loop of `main` over the input files, returning each file's
written record (`none` for a skipped or unsupported file). -/
def process_batch (policy : String) (pinned : Option String) (nz : Option String) :
    CStatus → List FileIn → List (Option Hash)
  | _, [] => []
  | st, f :: fs =>
    let r := process_file policy pinned nz st f
    r.1 :: process_batch policy pinned nz r.2 fs

/-- Output record of the n-th batch entry. -/
def nthOut (l : List (Option Hash)) (n : ℕ) : Option Hash :=
  (l.drop n).headD none

/-- Binary exponent normalisation for the binary64 model: an `e` with
`2 ^ 52 ≤ |q| * 2 ^ e < 2 ^ 53`. -/
def fp64exp (a : ℚ) : ℤ :=
  let l : ℤ := (log2F 4096 a.num.natAbs : ℤ) - (log2F 4096 a.den : ℤ)
  let e := 52 - l
  if a * qpow2 e < (2 : ℚ) ^ (52 : ℕ) then e + 1
  else if (2 : ℚ) ^ (53 : ℕ) ≤ a * qpow2 e then e - 1
  else e

/-- Round a rational to the nearest binary64 value: round half to even on a
53-bit significand.  Overflow and subnormal ranges are outside every use
made of this model. -/
def fp64 (q : ℚ) : ℚ :=
  if q = 0 then 0
  else
    let a := pyAbs q
    let e := fp64exp a
    let m := a * qpow2 e
    let fl := ratFloor m
    let r := m - fl
    let n : ℤ := if 2 * r < 1 then fl else if 1 < 2 * r then fl + 1 else if fl % 2 = 0 then fl else fl + 1
    qdiv (if q < 0 then -(n : ℚ) else (n : ℚ)) (qpow2 e)

/-- Python `float(s)` in the binary64 model: exact parse followed by
correct rounding. -/
def pyFloat64 (s : String) : Option ℚ := (pyFloatParse s).map fp64

/-- The numeric value of `percent_to_mm` on its multiplication path as
CPython computes it, with every operation rounded to binary64:
`float(mm_str) * (float(remove_percent(percent_str)) / 100)`.  The
non-numeric paths of the method return `none` here. -/
def percent_to_mm_f64 (mm_comparator percent_param : Option String) : Option ℚ :=
  match mm_comparator, percent_param with
  | none, _ => none
  | _, none => none
  | some mc, some pp =>
    let mm_str := pyStrip mc
    let percent_str := pyStrip pp
    if mm_str = "" || percent_str = "" then none
    else if !is_percent percent_str then none
    else if is_percent mm_str then none
    else
      match pyFloat64 mm_str, pyFloat64 (remove_percent percent_str) with
      | some a, some b => some (fp64 (a * fp64 (qdiv b 100)))
      | _, _ => none

/-- Specification helper (not a source translation): the last ironing-type
assignment the translation loop performs on the entries it visits. -/
def loop_iro_set (ini_type : String) (source_ini : Ini) : List (String × String) → Option String
  | [] => none
  | (p, _) :: rest =>
    if p = "profile_name" then loop_iro_set ini_type source_ini rest
    else
      match alookup (param_map_for ini_type) p with
      | none => loop_iro_set ini_type source_ini rest
      | some _ =>
        match loop_iro_set ini_type source_ini rest with
        | some x => some x
        | none => cpIroningSet source_ini p

/-- Specification helper: the temperature readings the translation loop
folds into its running maximum, with the record threaded exactly as the
loop threads it. -/
def loop_temps (slicer_flavor : Option String) (ini_type : String) (nozzle_size : Option String)
    (source_ini : Ini) : List (String × String) → Hash → List ℚ
  | [], _ => []
  | (p, _) :: rest, h =>
    if p = "profile_name" then loop_temps slicer_flavor ini_type nozzle_size source_ini rest h
    else
      match alookup (param_map_for ini_type) p with
      | none => loop_temps slicer_flavor ini_type nozzle_size source_ini rest h
      | some tgt =>
        let v := convertParamsVal slicer_flavor nozzle_size h source_ini p
        let h1 := applyWrites h (cpHashWrites source_ini p)
        match v with
        | none => loop_temps slicer_flavor ini_type nozzle_size source_ini rest h1
        | some vv =>
          let h2 := writeTargets h1 tgt vv
          (if p = "first_layer_temperature" || p = "temperature" then
            (match tempOf vv with | some t => [t] | none => [])
          else []) ++ loop_temps slicer_flavor ini_type nozzle_size source_ini rest h2

/-- Specification helper: the record the translation loop produces,
threaded exactly as the loop threads it (the loop's record is independent
of the ironing and temperature seeds, which is what `param_loop_decomp`
states). -/
def loop_hash (slicer_flavor : Option String) (ini_type : String) (nozzle_size : Option String)
    (source_ini : Ini) : List (String × String) → Hash → Hash
  | [], h => h
  | (p, _) :: rest, h =>
    if p = "profile_name" then loop_hash slicer_flavor ini_type nozzle_size source_ini rest h
    else
      match alookup (param_map_for ini_type) p with
      | none => loop_hash slicer_flavor ini_type nozzle_size source_ini rest h
      | some tgt =>
        let v := convertParamsVal slicer_flavor nozzle_size h source_ini p
        let h1 := applyWrites h (cpHashWrites source_ini p)
        match v with
        | none => loop_hash slicer_flavor ini_type nozzle_size source_ini rest h1
        | some vv => loop_hash slicer_flavor ini_type nozzle_size source_ini rest (writeTargets h1 tgt vv)

/-- Concrete filament document whose output already exists, used to witness
the state-leak analysis: eleven filament-mapping keys, temperature 250. -/
def leakFile1 : FileIn :=
  { lines := ["# generated by SuperSlicer", "temperature = 250",
      "filament_cost = 1", "filament_density = 1.2", "filament_diameter = 1.75",
      "filament_colour = x", "filament_soluble = 0", "filament_vendor = v",
      "filament_wipe = 0", "filament_shrink = 100%", "min_fan_speed = 30",
      "max_fan_speed = 80"],
    stem := "f1", existing := some [] }

/-- Concrete filament document with no existing output, temperature 200. -/
def leakFile2 : FileIn :=
  { lines := ["# generated by SuperSlicer", "temperature = 200",
      "filament_cost = 1", "filament_density = 1.2", "filament_diameter = 1.75",
      "filament_colour = x", "filament_soluble = 0", "filament_vendor = v",
      "filament_wipe = 0", "filament_shrink = 100%", "min_fan_speed = 30",
      "max_fan_speed = 80"],
    stem := "f2", existing := none }

/-- Concrete parsed document with eleven filament-mapping keys and no
print or printer keys. -/
def filamentDetectIni : Ini :=
  [("temperature", "250"), ("filament_cost", "1"), ("filament_density", "1.2"),
   ("filament_diameter", "1.75"), ("filament_colour", "x"), ("filament_soluble", "0"),
   ("filament_vendor", "v"), ("filament_wipe", "0"), ("filament_shrink", "100%"),
   ("min_fan_speed", "30"), ("max_fan_speed", "80")]

/-- Concrete parsed document producing a print/filament tie at count 10:
six print-only keys, six filament-only keys, four keys shared by both
mappings (one of them, inherits, also counts once for printer). -/
def tieDetectIni : Ini :=
  [("brim_width", "1"), ("skirts", "2"), ("perimeters", "3"), ("top_solid_layers", "4"),
   ("bottom_solid_layers", "5"), ("fill_density", "20%"),
   ("filament_cost", "1"), ("filament_density", "1.2"), ("filament_diameter", "1.75"),
   ("filament_colour", "x"), ("filament_soluble", "0"), ("filament_vendor", "v"),
   ("inherits", "a"), ("compatible_printers", "b"), ("compatible_printers_condition", "c"),
   ("extrusion_multiplier", "1")]

/-- Concrete parsed document carrying every lookup-table key with a value
unknown to all the tables. -/
def lookupWitnessIni : Ini :=
  [("filament_type", "bizarre"), ("fill_pattern", "bizarre"), ("thumbnails_format", "bizarre"),
   ("seam_position", "bizarre"), ("gcode_flavor", "bizarre"), ("host_type", "bizarre"),
   ("support_material_pattern", "bizarre"), ("support_material_interface_pattern", "bizarre")]

/-- Concrete print document with the overhang-speed toggle enabled and
four discretely-named speeds. -/
def overhangIni : Ini :=
  [("enable_dynamic_overhang_speeds", "1"), ("overhang_speed_0", "10"),
   ("overhang_speed_1", "20"), ("overhang_speed_2", "30"), ("overhang_speed_3", "40")]

/-- Option preference: the first operand when present, else the second
(the shape of the ironing-tracker updates). -/
def optOr {α : Type} (a b : Option α) : Option α :=
  match a with
  | some x => some x
  | none => b

@[simp] theorem alookup_nil {α : Type} (s : String) :
    alookup ([] : List (String × α)) s = none := rfl

@[simp] theorem alookup_cons {α : Type} (k : String) (a : α) (t : List (String × α)) (s : String) :
    alookup ((k, a) :: t) s = if k = s then some a else alookup t s := rfl

@[simp] theorem strMem_nil (s : String) : strMem s [] = false := rfl

@[simp] theorem strMem_cons (s k : String) (t : List String) :
    strMem s (k :: t) = (s = k || strMem s t) := rfl

theorem alookup_append {α : Type} (l1 l2 : List (String × α)) (s : String) :
    alookup (l1 ++ l2) s = optOr (alookup l1 s) (alookup l2 s) := by
  induction l1 with
  | nil => simp [optOr]
  | cons kv t ih =>
    rcases kv with ⟨k, v⟩
    by_cases h : k = s <;> simp [h, ih, optOr]

theorem alookup_map_upd_isSome {α : Type} (k : String) (v : α) :
    ∀ (l : List (String × α)), (alookup l k).isSome →
      alookup (l.map fun kv => if kv.1 = k then (k, v) else kv) k = some v := by
  intro l
  induction l with
  | nil => simp
  | cons kv t ih =>
    rcases kv with ⟨k1, v1⟩
    by_cases h : k1 = k
    · intro _; simp [h]
    · intro hs
      simp only [alookup_cons, h, if_false] at hs
      simp [h, ih hs]

theorem alookup_map_upd_ne {α : Type} (k k' : String) (v : α) (h : k' ≠ k) :
    ∀ (l : List (String × α)),
      alookup (l.map fun kv => if kv.1 = k then (k, v) else kv) k' = alookup l k' := by
  intro l
  induction l with
  | nil => simp
  | cons kv t ih =>
    rcases kv with ⟨k1, v1⟩
    by_cases h1 : k1 = k
    · have hne : ¬ (k = k') := fun hc => h hc.symm
      simp [h1, hne, ih]
    · by_cases h2 : k1 = k' <;> simp [h1, h2, h, ih]

theorem alookup_dictInsert_self {α : Type} (l : List (String × α)) (k : String) (v : α) :
    alookup (dictInsert l k v) k = some v := by
  unfold dictInsert
  by_cases hs : (alookup l k).isSome
  · simp [hs, alookup_map_upd_isSome k v l hs]
  · simp only [hs, if_false]
    have hnone : alookup l k = none := by
      cases h : alookup l k
      · rfl
      · rw [h] at hs; simp at hs
    simp [alookup_append, hnone, optOr]

theorem alookup_dictInsert_ne {α : Type} (l : List (String × α)) (k k' : String) (v : α)
    (h : k' ≠ k) : alookup (dictInsert l k v) k' = alookup l k' := by
  unfold dictInsert
  by_cases hs : (alookup l k).isSome
  · simp [hs, alookup_map_upd_ne k k' v h l]
  · have hne : ¬ (k = k') := fun hc => h hc.symm
    rw [if_neg hs, alookup_append]
    simp only [alookup_cons, alookup_nil, hne, if_false]
    cases alookup l k' <;> simp [optOr]

theorem optOr_assoc {α : Type} (a b c : Option α) :
    optOr (optOr a b) c = optOr a (optOr b c) := by
  cases a <;> simp [optOr]

theorem optOr_self_absorb {α : Type} (a b : Option α) :
    optOr a (optOr a b) = optOr a b := by
  cases a <;> simp [optOr]

theorem max_step_eq (m t : ℚ) : (if m < t then t else m) = max m t := by
  rcases le_or_lt t m with h | h
  · rw [if_neg (not_lt.2 h), max_eq_left h]
  · rw [if_pos h, max_eq_right h.le]

theorem le_foldl_max (L : List ℚ) : ∀ m : ℚ, m ≤ L.foldl max m := by
  induction L with
  | nil => intro m; simp
  | cons x t ih =>
    intro m
    calc m ≤ max m x := le_max_left m x
    _ ≤ t.foldl max (max m x) := ih (max m x)

theorem foldl_max_elem_le (L : List ℚ) : ∀ (m x : ℚ), x ∈ L → x ≤ L.foldl max m := by
  induction L with
  | nil => intro m x hx; simp at hx
  | cons y t ih =>
    intro m x hx
    rcases List.mem_cons.1 hx with h | h
    · subst h
      calc x ≤ max m x := le_max_right m x
      _ ≤ t.foldl max (max m x) := le_foldl_max t (max m x)
    · exact ih (max m y) x h

theorem foldl_max_of_le (L : List ℚ) : ∀ m : ℚ, (∀ x ∈ L, x ≤ m) → L.foldl max m = m := by
  induction L with
  | nil => intro m _; rfl
  | cons y t ih =>
    intro m hb
    have hy : y ≤ m := hb y (List.mem_cons_self y t)
    have : max m y = m := max_eq_left hy
    rw [List.foldl_cons, this]
    exact ih m fun x hx => hb x (List.mem_cons_of_mem y hx)

theorem foldl_max_idem (L : List ℚ) (m : ℚ) :
    L.foldl max (L.foldl max m) = L.foldl max m :=
  foldl_max_of_le L (L.foldl max m) fun x hx => foldl_max_elem_le L m x hx

theorem param_loop_decomp (fl : Option String) (it : String) (nz : Option String) (ini : Ini) :
    ∀ (es : List (String × String)) (h : Hash) (iro : Option String) (m : ℚ),
    param_loop fl it nz ini es h iro m =
      (loop_hash fl it nz ini es h,
       optOr (loop_iro_set it ini es) iro,
       List.foldl max m (loop_temps fl it nz ini es h)) := by
  intro es
  induction es with
  | nil =>
    intro h iro m
    simp [param_loop, loop_hash, loop_iro_set, loop_temps, optOr]
  | cons e rest ih =>
    rcases e with ⟨p, pv⟩
    intro h iro m
    by_cases hp : p = "profile_name"
    · simp only [param_loop, loop_hash, loop_iro_set, loop_temps, hp, if_pos]
      exact ih h iro m
    · simp only [param_loop, loop_hash, loop_iro_set, loop_temps, hp, if_neg, if_false]
      cases hm : alookup (param_map_for it) p with
      | none =>
        simp only
        exact ih h iro m
      | some tgt =>
        simp only
        cases hv : convertParamsVal fl nz h ini p with
        | none =>
          simp only [ih]
          refine congrArg₂ Prod.mk rfl (congrArg₂ Prod.mk ?_ rfl)
          cases cpIroningSet ini p <;> cases loop_iro_set it ini rest <;> simp [optOr]
        | some vv =>
          simp only [ih]
          refine congrArg₂ Prod.mk rfl (congrArg₂ Prod.mk ?_ ?_)
          · cases cpIroningSet ini p <;> cases loop_iro_set it ini rest <;> simp [optOr]
          · cases hcond : (p = "first_layer_temperature" || p = "temperature" : Bool) with
            | false => simp [hcond]
            | true =>
              simp only [hcond, if_pos]
              cases htv : tempOf vv with
              | none => simp
              | some t => simp [max_step_eq]

/-- C1: on the reference 0.4 with value 150 percent, the binary64 value the
code computes is the double 5404319552844596/2^53, which differs both from
the exact 3/5 and from the binary64 nearest to 0.6 -- so its shortest
round-tripping decimal (what CPython prints) cannot be the string 0.6 the
specification states.  The exact-rational reading of the same rule does
produce 0.6, and the reference-is-percent case does yield no result,
confirming those parts of the claim describe the intended rule. -/
theorem percent_to_mm_binary64_divergence :
    percent_to_mm_f64 (some "0.4") (some "150%") = some (mkRat 5404319552844596 (2 ^ 53))
    ∧ mkRat 5404319552844596 (2 ^ 53) ≠ mkRat 3 5
    ∧ mkRat 5404319552844596 (2 ^ 53) ≠ fp64 (mkRat 3 5)
    ∧ percent_to_mm (some "0.4") (some "150%") = some "0.6"
    ∧ percent_to_mm (some "50%") (some "150%") = none := by
  refine ⟨?_, ?_, ?_, ?_, ?_⟩ <;> decide

/-- C2: the per-conversion context is not reset after a file whose write is
skipped by the existing-file skip policy -- the reset lines sit after the
`continue` statements of the batch loop.  A batch of two filament
documents where the first (temperature 250) is skipped because its output
exists gives the second (temperature 200) a leaked temperature range high
of 250, whereas converting the second file alone gives 200. -/
theorem context_leak_after_skip :
    (nthOut (process_batch "skip" none none freshStatus [leakFile1, leakFile2]) 1).bind
        (fun h => alookup h "nozzle_temperature_range_high") = some (.str "250")
    ∧ (nthOut (process_batch "skip" none none freshStatus [leakFile2]) 0).bind
        (fun h => alookup h "nozzle_temperature_range_high") = some (.str "200") := by
  constructor <;> decide

/-- C3 counterexample: an unrecognized gcode-flavor value is dropped (the
rule returns no value, so the key is omitted), not passed through
unchanged as the claim states. -/
theorem unknown_gcode_flavor_dropped :
    convertParamsVal (some "PrusaSlicer") none [] [("gcode_flavor", "bizarre")] "gcode_flavor" = none
    ∧ convertParamsVal (some "PrusaSlicer") none [] [("gcode_flavor", "bizarre")] "gcode_flavor"
        ≠ some (VVal.str "bizarre") := by
  constructor <;> decide

/-- C3 amended: for values absent from the rule's table, the filament-type,
infill-pattern, thumbnail-format and seam-position rules pass the value
through unchanged; the gcode-flavor and host-type rules drop the value
entirely; the support-pattern rule yields the fixed default and the
support-interface-pattern rule yields auto. -/
theorem lookup_fallbacks_amended (fl nz : Option String) (h : Hash) (ini : Ini) (v : String)
    (hnil : v ≠ "nil") :
    (alookup ini "filament_type" = some v → alookup FILAMENT_TYPES v = none →
      convertParamsVal fl nz h ini "filament_type" = some (.str v))
    ∧ (alookup ini "fill_pattern" = some v → alookup INFILL_TYPES v = none →
      convertParamsVal fl nz h ini "fill_pattern" = some (.str v))
    ∧ (alookup ini "thumbnails_format" = some v → alookup THUMBNAIL_FORMAT v = none →
      convertParamsVal fl nz h ini "thumbnails_format" = some (.str v))
    ∧ (alookup ini "seam_position" = some v → alookup SEAM_POSITIONS v = none →
      convertParamsVal fl nz h ini "seam_position" = some (.str v))
    ∧ (alookup ini "gcode_flavor" = some v → alookup GCODE_FLAVORS v = none →
      convertParamsVal fl nz h ini "gcode_flavor" = none)
    ∧ (alookup ini "host_type" = some v → alookup HOST_TYPES v = none →
      convertParamsVal fl nz h ini "host_type" = none)
    ∧ (alookup ini "support_material_pattern" = some v → strMem v SUPPORT_PATTERNS = false →
      convertParamsVal fl nz h ini "support_material_pattern" = some (.str "default"))
    ∧ (alookup ini "support_material_interface_pattern" = some v →
      strMem v INTERFACE_PATTERNS = false →
      convertParamsVal fl nz h ini "support_material_interface_pattern" = some (.str "auto")) := by
  refine ⟨?_, ?_, ?_, ?_, ?_, ?_, ?_, ?_⟩ <;> intro hv htab <;>
    simp [convertParamsVal, hv, hnil, htab, pyStrV, gcode_params, percent_to_mm_params,
      MULTIVALUE_PARAMS]

/-- C3 amended, witnessed at the concrete value bizarre on a document
carrying all eight lookup-rule keys. -/
theorem lookup_fallbacks_amended_witness :
    convertParamsVal none none [] lookupWitnessIni "filament_type" = some (.str "bizarre")
    ∧ convertParamsVal none none [] lookupWitnessIni "fill_pattern" = some (.str "bizarre")
    ∧ convertParamsVal none none [] lookupWitnessIni "thumbnails_format" = some (.str "bizarre")
    ∧ convertParamsVal none none [] lookupWitnessIni "seam_position" = some (.str "bizarre")
    ∧ convertParamsVal none none [] lookupWitnessIni "gcode_flavor" = none
    ∧ convertParamsVal none none [] lookupWitnessIni "host_type" = none
    ∧ convertParamsVal none none [] lookupWitnessIni "support_material_pattern" = some (.str "default")
    ∧ convertParamsVal none none [] lookupWitnessIni "support_material_interface_pattern"
        = some (.str "auto") := by
  have H := lookup_fallbacks_amended none none [] lookupWitnessIni "bizarre" (by decide)
  exact ⟨H.1 (by decide) (by decide), H.2.1 (by decide) (by decide),
    H.2.2.1 (by decide) (by decide), H.2.2.2.1 (by decide) (by decide),
    H.2.2.2.2.1 (by decide) (by decide), H.2.2.2.2.2.1 (by decide) (by decide),
    H.2.2.2.2.2.2.1 (by decide) (by decide), H.2.2.2.2.2.2.2 (by decide) (by decide)⟩

/-- C4: without an explicit marker, kind detection counts key overlap per
kind; the result is none exactly when every count is below 10, any
detected kind attains the maximal count, and a document with at least 10
filament-mapping keys and fewer than 10 print and printer keys resolves
to filament. -/
theorem detect_kind_threshold (ini : Ini) (hmark : alookup ini "ini_type" = none) :
    (detect_ini_type ini = none ↔
      countMatches ini printParamKeys < 10 ∧ countMatches ini filamentParamKeys < 10
        ∧ countMatches ini printerParamKeys < 10)
    ∧ (∀ k, detect_ini_type ini = some k →
      countMatches ini (if k = "print" then printParamKeys
          else if k = "filament" then filamentParamKeys else printerParamKeys)
        = max (countMatches ini printParamKeys)
            (max (countMatches ini filamentParamKeys) (countMatches ini printerParamKeys)))
    ∧ (10 ≤ countMatches ini filamentParamKeys → countMatches ini printParamKeys < 10 →
      countMatches ini printerParamKeys < 10 → detect_ini_type ini = some "filament") := by
  simp only [detect_ini_type, hmark]
  refine ⟨?_, ?_, ?_⟩
  · by_cases hall : countMatches ini printParamKeys < 10
        ∧ countMatches ini filamentParamKeys < 10 ∧ countMatches ini printerParamKeys < 10
    · simp [hall]
    · simp [hall]
  · intro k hk
    by_cases hall : countMatches ini printParamKeys < 10
        ∧ countMatches ini filamentParamKeys < 10 ∧ countMatches ini printerParamKeys < 10
    · simp [hall] at hk
    · rw [if_neg hall] at hk
      injection hk with hk
      subst hk
      by_cases h1 : countMatches ini printParamKeys < countMatches ini filamentParamKeys
      · by_cases h2 : countMatches ini filamentParamKeys < countMatches ini printerParamKeys
        · simp [h1, h2]
          omega
        · simp [h1, h2]
          omega
      · by_cases h2 : countMatches ini printParamKeys < countMatches ini printerParamKeys
        · simp [h1, h2]
          omega
        · simp [h1, h2]
          omega
  · intro hcf hcp hcr
    have h1 : countMatches ini printParamKeys < countMatches ini filamentParamKeys :=
      lt_of_lt_of_le hcp hcf
    have hall : ¬ (countMatches ini printParamKeys < 10
        ∧ countMatches ini filamentParamKeys < 10 ∧ countMatches ini printerParamKeys < 10) := by
      omega
    have h2 : ¬ (countMatches ini filamentParamKeys < countMatches ini printerParamKeys) := by
      omega
    simp [hall, h1, h2]

/-- C4 witnessed on a document with eleven filament-mapping keys and no
print or printer keys. -/
theorem detect_kind_threshold_witness :
    detect_ini_type filamentDetectIni = some "filament" := by
  exact (detect_kind_threshold filamentDetectIni (by decide)).2.2 (by decide) (by decide) (by decide)

/-- C5: under the merge policy the merged document maps every key of the
existing record to its existing value and every key of the new record
absent from the existing one to the new value (spelled as an ordered
choice on lookups, with the claim's example instance); under the skip
policy the per-file step writes nothing. -/
theorem merge_policy_spec :
    (∀ (existing data : Hash) (k : String),
      alookup (merge_existing existing data) k = optOr (alookup existing k) (alookup data k))
    ∧ merge_existing [("a", .str "1")] [("a", .str "2"), ("b", .str "3")]
        = [("a", .str "1"), ("b", .str "3")]
    ∧ (∀ (pinned nz : Option String) (st : CStatus) (lines : List String) (stem : String)
        (ex : Hash),
      (process_file "skip" pinned nz st { lines := lines, stem := stem, existing := some ex }).1
        = none) := by
  refine ⟨?_, by decide, ?_⟩
  · intro existing data
    induction data generalizing existing with
    | nil =>
      intro k
      simp only [merge_existing, List.foldl_nil, alookup_nil]
      cases alookup existing k <;> simp [optOr]
    | cons kv d ih =>
      intro k
      rcases kv with ⟨k1, v1⟩
      simp only [merge_existing, List.foldl_cons] at ih ⊢
      by_cases hs : (alookup existing k1).isSome
      · rw [if_pos hs, ih existing k]
        by_cases hk : k1 = k
        · subst hk
          rcases Option.isSome_iff_exists.1 hs with ⟨w, hw⟩
          simp [hw, optOr]
        · simp [alookup_cons, hk]
      · rw [if_neg hs, ih (dictInsert existing k1 v1) k]
        have hnone : alookup existing k1 = none := Option.not_isSome_iff_eq_none.1 hs
        by_cases hk : k1 = k
        · subst hk
          rw [alookup_dictInsert_self, hnone]
          simp [optOr]
        · rw [alookup_dictInsert_ne existing k1 k v1 (fun hc => hk hc.symm)]
          simp [alookup_cons, hk]
  · intro pinned nz st lines stem ex
    cases hd : (convert_profile st lines stem nz).1.1 with
    | none => simp [process_file, hd]
    | some data => simp [process_file, hd]

/-- C6: a document whose flavor cannot be detected (no recognizable header
and no flavor carried in), or whose kind cannot be detected when none is
pinned, makes the conversion entry point return the unsupported sentinel
with no record; the batch loop emits no output for such a file and
continues with the remaining files. -/
theorem undetectable_unsupported (st : CStatus) (lines : List String) (stem : String)
    (nz : Option String) :
    (st.slicer_flavor = none → (ini_reader_lines lines).1 = none →
      (convert_profile st lines stem nz).1 = (none, "unsupported", stem))
    ∧ (st.ini_type = none → detect_ini_type (ini_reader_lines lines).2 = none →
      (convert_profile st lines stem nz).1 = (none, "unsupported", stem))
    ∧ (∀ (policy : String) (pinned : Option String) (f : FileIn) (fs : List FileIn),
      (convert_profile st f.lines f.stem nz).1.1 = none →
      process_batch policy pinned nz st (f :: fs) =
        none :: process_batch policy pinned nz (convert_profile st f.lines f.stem nz).2 fs) := by
  refine ⟨?_, ?_, ?_⟩
  · intro h1 h2
    simp [convert_profile, h1, h2, pyTruthyOpt]
  · intro hit hdet
    by_cases hf : pyTruthyOpt (match (ini_reader_lines lines).1 with
      | some f => some f
      | none => st.slicer_flavor) = true
    · simp [convert_profile, hit, hdet, hf, pyOrOpt]
    · simp [convert_profile, hf]
  · intro policy pinned f fs hr
    simp only [process_batch, process_file, hr]

/-- C6 witnessed on a headerless document and on a header-only document
with no detectable kind, both from a fresh converter. -/
theorem undetectable_unsupported_witness :
    (convert_profile freshStatus ["x = 1"] "bad1" none).1 = (none, "unsupported", "bad1")
    ∧ (convert_profile freshStatus ["# generated by PrusaSlicer", "foo = 1"] "bad2" none).1
        = (none, "unsupported", "bad2") := by
  exact ⟨(undetectable_unsupported freshStatus ["x = 1"] "bad1" none).1 (by decide) (by decide),
    (undetectable_unsupported freshStatus ["# generated by PrusaSlicer", "foo = 1"] "bad2"
      none).2.1 (by decide) (by decide)⟩

/-- C7: the print-order phrase is exactly one of four fixed orderings
selected by the two booleans, with no fifth case, and a print document
with external_perimeters_first 0 and infill_first 1 produces the phrase
infill/inner wall/outer wall. -/
theorem print_order_exhaustive :
    evaluate_print_order false false = "inner wall/outer wall/infill"
    ∧ evaluate_print_order true false = "outer wall/inner wall/infill"
    ∧ evaluate_print_order false true = "infill/inner wall/outer wall"
    ∧ evaluate_print_order true true = "infill/outer wall/inner wall"
    ∧ (∀ e i : Bool, evaluate_print_order e i = "inner wall/outer wall/infill"
        ∨ evaluate_print_order e i = "outer wall/inner wall/infill"
        ∨ evaluate_print_order e i = "infill/inner wall/outer wall"
        ∨ evaluate_print_order e i = "infill/outer wall/inner wall")
    ∧ alookup (calculate_print_params (some "SuperSlicer") none none
        [("external_perimeters_first", "0"), ("infill_first", "1")] []).1 "wall_infill_order"
        = some (.str "infill/inner wall/outer wall") := by
  refine ⟨rfl, rfl, rfl, rfl, ?_, by decide⟩
  decide

/-- C8: with the dynamic-overhang toggle enabled and at least four speed
values available (a single delimited array under the SuperSlicer flavor,
the four discretely-named keys otherwise), the four destination keys
receive the source values in reversed index order: source index 3 lands in
overhang_1_4_speed down to source index 0 in overhang_4_4_speed, and the
enable flag is written as 1. -/
theorem overhang_speeds_reversed (fl nz iro : Option String) (ini : Ini) (h : Hash)
    (henable : (alookup ini "enable_dynamic_overhang_speeds").getD "0" = "1")
    (hlen : 4 ≤ (if fl = some "SuperSlicer"
        then multivalue_to_array (some ((alookup ini "dynamic_overhang_speeds").getD ""))
        else [(alookup ini "overhang_speed_0").getD "", (alookup ini "overhang_speed_1").getD "",
              (alookup ini "overhang_speed_2").getD "",
              (alookup ini "overhang_speed_3").getD ""]).length) :
    (let speeds := if fl = some "SuperSlicer"
        then multivalue_to_array (some ((alookup ini "dynamic_overhang_speeds").getD ""))
        else [(alookup ini "overhang_speed_0").getD "", (alookup ini "overhang_speed_1").getD "",
              (alookup ini "overhang_speed_2").getD "",
              (alookup ini "overhang_speed_3").getD ""]
     alookup (calculate_print_params fl nz iro ini h).1 "overhang_1_4_speed"
        = some (.str (speeds.getD 3 ""))
     ∧ alookup (calculate_print_params fl nz iro ini h).1 "overhang_2_4_speed"
        = some (.str (speeds.getD 2 ""))
     ∧ alookup (calculate_print_params fl nz iro ini h).1 "overhang_3_4_speed"
        = some (.str (speeds.getD 1 ""))
     ∧ alookup (calculate_print_params fl nz iro ini h).1 "overhang_4_4_speed"
        = some (.str (speeds.getD 0 ""))
     ∧ alookup (calculate_print_params fl nz iro ini h).1 "enable_overhang_speed"
        = some (.str "1")) := by
  simp only [calculate_print_params, henable, if_pos, reduceIte, hlen]
  refine ⟨?_, ?_, ?_, ?_, ?_⟩ <;>
    rw [alookup_dictInsert_ne _ _ _ _ (by decide), alookup_dictInsert_ne _ _ _ _ (by decide)]
  · rw [alookup_dictInsert_ne _ _ _ _ (by decide), alookup_dictInsert_ne _ _ _ _ (by decide),
      alookup_dictInsert_ne _ _ _ _ (by decide), alookup_dictInsert_self]
  · rw [alookup_dictInsert_ne _ _ _ _ (by decide), alookup_dictInsert_ne _ _ _ _ (by decide),
      alookup_dictInsert_self]
  · rw [alookup_dictInsert_ne _ _ _ _ (by decide), alookup_dictInsert_self]
  · rw [alookup_dictInsert_self]
  · rw [alookup_dictInsert_ne _ _ _ _ (by decide), alookup_dictInsert_ne _ _ _ _ (by decide),
      alookup_dictInsert_ne _ _ _ _ (by decide), alookup_dictInsert_ne _ _ _ _ (by decide),
      alookup_dictInsert_self]

/-- C8 witnessed on a print document with the toggle enabled and the four
discretely-named speeds 10, 20, 30, 40. -/
theorem overhang_speeds_reversed_witness :
    alookup (calculate_print_params (some "PrusaSlicer") none none overhangIni []).1
        "overhang_1_4_speed" = some (.str "40")
    ∧ alookup (calculate_print_params (some "PrusaSlicer") none none overhangIni []).1
        "overhang_4_4_speed" = some (.str "10") := by
  have H := overhang_speeds_reversed (some "PrusaSlicer") none none overhangIni []
    (by decide) (by decide)
  exact ⟨H.1, H.2.2.2.1⟩

/-- C10: without an explicit marker, count-based detection never yields
physical_printer (that kind is skipped during scoring and arises only from
an explicit marker); on ties of the maximal count, at least 10, the first
kind in the fixed order print, filament, printer is selected. -/
theorem detect_tie_break (ini : Ini) (hmark : alookup ini "ini_type" = none) :
    detect_ini_type ini ≠ some "physical_printer"
    ∧ (∀ ini2 : Ini, alookup ini2 "ini_type" = some "physical_printer" →
      detect_ini_type ini2 = some "physical_printer")
    ∧ (countMatches ini printParamKeys = countMatches ini filamentParamKeys →
      countMatches ini printerParamKeys ≤ countMatches ini printParamKeys →
      10 ≤ countMatches ini printParamKeys →
      detect_ini_type ini = some "print")
    ∧ (countMatches ini printParamKeys = countMatches ini printerParamKeys →
      countMatches ini filamentParamKeys ≤ countMatches ini printParamKeys →
      10 ≤ countMatches ini printParamKeys →
      detect_ini_type ini = some "print")
    ∧ (countMatches ini filamentParamKeys = countMatches ini printerParamKeys →
      countMatches ini printParamKeys < countMatches ini filamentParamKeys →
      10 ≤ countMatches ini filamentParamKeys →
      detect_ini_type ini = some "filament") := by
  refine ⟨?_, ?_, ?_, ?_, ?_⟩
  · simp only [detect_ini_type, hmark]
    by_cases hall : countMatches ini printParamKeys < 10
        ∧ countMatches ini filamentParamKeys < 10 ∧ countMatches ini printerParamKeys < 10
    · simp [hall]
    · rw [if_neg hall]
      by_cases h1 : countMatches ini printParamKeys < countMatches ini filamentParamKeys
      · by_cases h2 : countMatches ini filamentParamKeys < countMatches ini printerParamKeys <;>
          simp [h1, h2]
      · by_cases h2 : countMatches ini printParamKeys < countMatches ini printerParamKeys <;>
          simp [h1, h2]
  · intro ini2 hm2
    simp [detect_ini_type, hm2, pyLower]
  · intro he hr h10
    have hall : ¬ (countMatches ini printParamKeys < 10
        ∧ countMatches ini filamentParamKeys < 10 ∧ countMatches ini printerParamKeys < 10) := by
      omega
    have h1 : ¬ (countMatches ini printParamKeys < countMatches ini filamentParamKeys) := by omega
    have h2 : ¬ (countMatches ini printParamKeys < countMatches ini printerParamKeys) := by omega
    simp [detect_ini_type, hmark, hall, h1, h2]
  · intro he hf h10
    have hall : ¬ (countMatches ini printParamKeys < 10
        ∧ countMatches ini filamentParamKeys < 10 ∧ countMatches ini printerParamKeys < 10) := by
      omega
    have h1 : ¬ (countMatches ini printParamKeys < countMatches ini filamentParamKeys) := by omega
    have h2 : ¬ (countMatches ini printParamKeys < countMatches ini printerParamKeys) := by omega
    simp [detect_ini_type, hmark, hall, h1, h2]
  · intro he hp h10
    have hall : ¬ (countMatches ini printParamKeys < 10
        ∧ countMatches ini filamentParamKeys < 10 ∧ countMatches ini printerParamKeys < 10) := by
      omega
    have h2 : ¬ (countMatches ini filamentParamKeys < countMatches ini printerParamKeys) := by
      omega
    simp [detect_ini_type, hmark, hp, h2]
    omega

/-- C10 witnessed on a document where print and filament both score 10 and
printer scores 1: detection selects print. -/
theorem detect_tie_break_witness :
    detect_ini_type tieDetectIni = some "print" := by
  exact (detect_tie_break tieDetectIni (by decide)).2.2.1 (by decide) (by decide) (by decide)

theorem speed_loop_iro (fl nz : Option String) (ini : Ini) :
    ∀ (ps : List String), (∀ p ∈ ps, p ≠ "ironing_type") →
    ∀ (h : Hash) (iro : Option String), (speed_loop fl nz ini ps h iro).2 = iro := by
  intro ps
  induction ps with
  | nil => intro _ h iro; rfl
  | cons p rest ih =>
    intro hmem h iro
    have hp : p ≠ "ironing_type" := hmem p (List.mem_cons_self p rest)
    have hrest : ∀ q ∈ rest, q ≠ "ironing_type" := fun q hq => hmem q (List.mem_cons_of_mem p hq)
    have hset : cpIroningSet ini p = none := by simp [cpIroningSet, hp]
    simp only [speed_loop, hset]
    by_cases hn : (alookup ini p).isNone
    · simp only [hn, if_pos, reduceIte]
      exact ih hrest h iro
    · simp only [hn, if_neg, Bool.false_eq_true, if_false]
      cases convertParamsVal fl nz h ini p <;> simp only <;> exact ih hrest _ iro

theorem calculate_print_params_iro (fl nz iro : Option String) (ini : Ini) (h : Hash) :
    (calculate_print_params fl nz iro ini h).2 = iro := by
  simp only [calculate_print_params]
  exact speed_loop_iro fl nz ini SPEED_SEQUENCE (by decide) h iro

theorem pyOrOpt_some_ne (s : String) (b : Option String) (h : ¬ s = "") :
    pyOrOpt (some s) b = some s := by
  simp [pyOrOpt, h]

/-- C9: running the profile conversion a second time on the same parsed
document, from the converter state the first run left behind and with the
same supplied nozzle size, produces exactly the same outcome triple
(record, kind, profile name): the mutable per-conversion context
(temperature maximum, ironing tracker, pinned kind, inferred nozzle size)
reaches a fixed point after one run, so repeated translation is
deterministic and idempotent. -/
theorem translator_idempotent (st : CStatus) (lines : List String) (stem : String)
    (nz : Option String) :
    (convert_profile (convert_profile st lines stem nz).2 lines stem nz).1
      = (convert_profile st lines stem nz).1 := by
  cases hh : (ini_reader_lines lines).1 with
  | some f =>
    by_cases hf : f = ""
    · simp [convert_profile, hh, hf, pyTruthyOpt]
    · cases hit : pyOrOpt st.ini_type (detect_ini_type (ini_reader_lines lines).2) with
      | none => simp [convert_profile, hh, hf, pyTruthyOpt, hit]
      | some it =>
        by_cases hit0 : it = ""
        · simp [convert_profile, hh, hf, pyTruthyOpt, hit, hit0]
        · by_cases g4 : (alookup (ini_reader_lines lines).2 "nozzle_diameter").isSome <;>
            by_cases g5 : pyTruthyOpt nz = true <;>
            by_cases g6 : (it = "print"
              && (alookup (ini_reader_lines lines).2 "layer_height").isSome) = true <;>
            by_cases g7 : it = "filament" <;>
            by_cases g8 : it = "print" <;>
            simp_all [convert_profile, pyTruthyOpt, pyOrOpt_some_ne, param_loop_decomp,
              calculate_print_params_iro, optOr_self_absorb, foldl_max_idem]
  | none =>
    cases hsf : st.slicer_flavor with
    | none => simp [convert_profile, hh, hsf, pyTruthyOpt]
    | some f =>
      by_cases hf : f = ""
      · simp [convert_profile, hh, hsf, hf, pyTruthyOpt]
      · cases hit : pyOrOpt st.ini_type (detect_ini_type (ini_reader_lines lines).2) with
        | none => simp [convert_profile, hh, hsf, hf, pyTruthyOpt, hit]
        | some it =>
          by_cases hit0 : it = ""
          · simp [convert_profile, hh, hsf, hf, pyTruthyOpt, hit, hit0]
          · by_cases g4 : (alookup (ini_reader_lines lines).2 "nozzle_diameter").isSome <;>
              by_cases g5 : pyTruthyOpt nz = true <;>
              by_cases g6 : (it = "print"
                && (alookup (ini_reader_lines lines).2 "layer_height").isSome) = true <;>
              by_cases g7 : it = "filament" <;>
              by_cases g8 : it = "print" <;>
              simp_all [convert_profile, pyTruthyOpt, pyOrOpt_some_ne, param_loop_decomp,
                calculate_print_params_iro, optOr_self_absorb, foldl_max_idem]
